import Mathlib

/-! # NATSS channel dispatcher: startup sequence and reconciliation

A shallow embedding of `contrib/natss/pkg/dispatcher/main.go`, followed by a
model of the reconciliation engine that the dispatcher it constructs implements.

`main` and `startMonitoring` call into libraries (zap, controller-runtime,
the NATS prometheus exporter) and into sibling packages of the repository.
Every such call is an `Effect` in the trace of a run; what a call returns is
read from a `World`, so a theorem quantified over `World` covers every
combination of call results.
-/

namespace Dispatcher

/-! ## Values handed around by `main` -/

/-- A Go `error` value that is not nil. -/
structure GoError where
  msg : String
deriving DecidableEq, Repr

/-- The `*zap.Logger` returned by `zap.NewProduction`. -/
structure Logger where
  id : Nat
deriving DecidableEq, Repr

/-- The `*rest.Config` returned by `config.GetConfigOrDie`. -/
structure Config where
  id : Nat
deriving DecidableEq, Repr

/-- The `manager.Manager` returned by `manager.New`. -/
structure Manager where
  id : Nat
deriving DecidableEq, Repr

/-- The dispatcher object returned by `dispatcher.NewDispatcher`. -/
structure NatssDispatcher where
  id : Nat
deriving DecidableEq, Repr

/-- The exporter options record. `main.go` assigns seven of its fields; the
remaining fields are declared in the exporter library and are carried in
`rest`, whose type is a parameter. -/
structure ExporterOptions (ρ : Type) where
  GetVarz : Bool
  GetSubz : Bool
  GetConnz : Bool
  GetRoutez : Bool
  ListenPort : Int
  ListenAddress : String
  NATSServerURL : String
  rest : ρ
deriving DecidableEq, Repr

/-- The exporter instance: the options it was created with and whether it is
currently running. The exporter is a library outside the repository; `Start`
and `WaitUntilDone` below follow the comments at their call sites in
`startMonitoring`, and whether `Stop` returns is read from the `World`. -/
structure Exporter (ρ : Type) where
  opts : ExporterOptions ρ
  running : Bool
deriving DecidableEq, Repr

/-- The call `exporter.NewExporter(opts)`: "create an exporter instance, ready
to be launched". -/
def NewExporter {ρ : Type} (opts : ExporterOptions ρ) : Exporter ρ :=
  { opts := opts, running := false }

/-- The call `exp.Start()`: "start collecting data". The exporter runs when the
call returns no error. -/
def Exporter.Start {ρ : Type} (e : Exporter ρ) (result : Option GoError) :
    Exporter ρ × Option GoError :=
  match result with
  | none => ({ e with running := true }, none)
  | some err => (e, some err)

/-- The call `exp.Stop()`. The source does not say whether the call returns on
an exporter in every state; `returns` says whether it does, and `none` is a Go
panic raised inside the call. After a call that returns the exporter is not
running. -/
def Exporter.Stop {ρ : Type} (e : Exporter ρ) (returns : Bool) : Option (Exporter ρ) :=
  if returns then some { e with running := false } else none

/-- The call `exp.WaitUntilDone()`: "block until the exporter is stopped". The
result says whether the call returns. -/
def Exporter.WaitUntilDone {ρ : Type} (e : Exporter ρ) : Bool :=
  !e.running

/-! ## Effects and runs -/

/-- One externally visible call made by `main` or `startMonitoring`, with the
arguments passed and, for a fallible call, the error returned (`none` is Go's
`nil`). -/
inductive Effect (ρ : Type) where
  | zapNewProduction (err : Option GoError)
  | logFatalf (format : String) (err : GoError)
  | getDefaultExporterOptions
  | newExporter (opts : ExporterOptions ρ)
  | expStart (err : Option GoError)
  | logPrintln (msg : String) (err : GoError)
  | expStop
  | expWaitUntilDone
  | getConfigOrDie (cfg : Option Config)
  | managerNew (cfg : Config) (err : Option GoError)
  | getScheme (mgr : Manager)
  | addToScheme (mgr : Manager) (err : Option GoError)
  | loggerInfo (msg : String)
  | getDefaultNatssURL
  | getDefaultClusterID
  | newDispatcher (url : String) (clusterID : String) (logger : Logger) (err : Option GoError)
  | mgrAdd (mgr : Manager) (d : NatssDispatcher) (err : Option GoError)
  | provideController (d : NatssDispatcher) (mgr : Manager) (logger : Logger)
      (err : Option GoError)
  | setupSignalHandler
  | mgrStart (mgr : Manager) (err : Option GoError)
  | loggerFatal (msg : String) (err : GoError)
  | osExit (code : Nat)
deriving DecidableEq, Repr

/-- How a run of `main` ends. -/
inductive Outcome where
  | returned
  | exited (code : Nat)
  | blocked
  | panicked
deriving DecidableEq, Repr

/-- A run of `main`: the calls made, in order, and how the run ended. -/
structure Run (ρ : Type) where
  trace : List (Effect ρ)
  outcome : Outcome
deriving DecidableEq, Repr

/-- What each library or sibling-package call returns in one run.
`expStopReturns r` says whether `exp.Stop()` returns when `exp.Start()` returned
`r`; when it does not, the call panics. -/
structure World (ρ : Type) where
  zapNewProduction : Except GoError Logger
  getDefaultExporterOptions : ExporterOptions ρ
  expStart : Option GoError
  expStopReturns : Option GoError → Bool
  getConfigOrDie : Option Config
  managerNew : Config → Except GoError Manager
  addToScheme : Manager → Option GoError
  getDefaultNatssURL : String
  getDefaultClusterID : String
  newDispatcher : String → String → Logger → Except GoError NatssDispatcher
  mgrAdd : Manager → NatssDispatcher → Option GoError
  provideController : NatssDispatcher → Manager → Logger → Option GoError
  mgrStart : Manager → Option GoError

/-- The result of `startMonitoring`: its calls, the exporter it leaves behind,
and how the function ends (it returns, blocks, or a call panics). -/
structure Monitoring (ρ : Type) where
  trace : List (Effect ρ)
  exporter : Exporter ρ
  outcome : Outcome

/-- The function `startMonitoring` of `main.go`. -/
def startMonitoring {ρ : Type} (w : World ρ) : Monitoring ρ :=
  let opts := w.getDefaultExporterOptions
  let opts := { opts with GetVarz := true }
  let opts := { opts with GetSubz := true }
  let opts := { opts with GetConnz := true }
  let opts := { opts with GetRoutez := true }
  let opts := { opts with ListenPort := 9090 }
  let opts := { opts with ListenAddress := "localhost" }
  let opts := { opts with NATSServerURL := "http://nats-streaming.natss.svc.cluster.local:8222" }
  let exp := NewExporter opts
  let t := [Effect.getDefaultExporterOptions, Effect.newExporter opts]
  let started := exp.Start w.expStart
  let exp := started.1
  let t := t ++ [Effect.expStart started.2]
  let t :=
    match started.2 with
    | some err => t ++ [Effect.logPrintln "cannot start nats prometheus exporter." err]
    | none => t
  let t := t ++ [Effect.expStop]
  match exp.Stop (w.expStopReturns started.2) with
  | none => { trace := t, exporter := exp, outcome := .panicked }
  | some exp =>
    let t := t ++ [Effect.expWaitUntilDone]
    { trace := t, exporter := exp,
      outcome := if exp.WaitUntilDone then .returned else .blocked }

/-- The effects of `logger.Fatal(msg, zap.Error(err))`: the message is logged
and the process exits with status 1. -/
def loggerFatal {ρ : Type} (msg : String) (err : GoError) : List (Effect ρ) :=
  [Effect.loggerFatal msg err, Effect.osExit 1]

/-- The function `main` of `main.go`. -/
def main {ρ : Type} (w : World ρ) : Run ρ :=
  match w.zapNewProduction with
  | .error err =>
    { trace := [Effect.zapNewProduction (some err),
                Effect.logFatalf "Unable to create logger: %v" err, Effect.osExit 1],
      outcome := .exited 1 }
  | .ok logger =>
    let t := [Effect.zapNewProduction none]
    let m := startMonitoring w
    let t := t ++ m.trace
    if m.outcome ≠ .returned then { trace := t, outcome := m.outcome } else
    match w.getConfigOrDie with
    | none => { trace := t ++ [Effect.getConfigOrDie none, Effect.osExit 1], outcome := .exited 1 }
    | some cfg =>
      let t := t ++ [Effect.getConfigOrDie (some cfg)]
      match w.managerNew cfg with
      | .error err =>
        { trace := t ++ [Effect.managerNew cfg (some err)] ++ loggerFatal "Error starting up." err,
          outcome := .exited 1 }
      | .ok mgr =>
        let t := t ++ [Effect.managerNew cfg none, Effect.getScheme mgr]
        match w.addToScheme mgr with
        | some err =>
          { trace := t ++ [Effect.addToScheme mgr (some err)]
              ++ loggerFatal "Unable to add eventingv1alpha1 scheme" err,
            outcome := .exited 1 }
        | none =>
          let t := t ++ [Effect.addToScheme mgr none, Effect.loggerInfo "Dispatcher starting...",
            Effect.getDefaultNatssURL, Effect.getDefaultClusterID]
          let url := w.getDefaultNatssURL
          let clusterID := w.getDefaultClusterID
          match w.newDispatcher url clusterID logger with
          | .error err =>
            { trace := t ++ [Effect.newDispatcher url clusterID logger (some err)]
                ++ loggerFatal "Unable to create NATSS dispatcher." err,
              outcome := .exited 1 }
          | .ok d =>
            let t := t ++ [Effect.newDispatcher url clusterID logger none]
            match w.mgrAdd mgr d with
            | some err =>
              { trace := t ++ [Effect.mgrAdd mgr d (some err)]
                  ++ loggerFatal "Unable to add the dispatcher" err,
                outcome := .exited 1 }
            | none =>
              let t := t ++ [Effect.mgrAdd mgr d none]
              match w.provideController d mgr logger with
              | some err =>
                { trace := t ++ [Effect.provideController d mgr logger (some err)]
                    ++ loggerFatal "Unable to create Channel controller" err,
                  outcome := .exited 1 }
              | none =>
                let t := t ++ [Effect.provideController d mgr logger none,
                  Effect.loggerInfo "Dispatcher controller starting...",
                  Effect.setupSignalHandler]
                match w.mgrStart mgr with
                | some err =>
                  { trace := t ++ [Effect.mgrStart mgr (some err)]
                      ++ loggerFatal "Manager.Start() returned an error" err,
                    outcome := .exited 1 }
                | none =>
                  { trace := t ++ [Effect.mgrStart mgr none], outcome := .returned }

/-- A world in which every call succeeds. -/
def okWorld : World Unit where
  zapNewProduction := .ok ⟨0⟩
  getDefaultExporterOptions :=
    { GetVarz := false, GetSubz := false, GetConnz := false, GetRoutez := false,
      ListenPort := 7777, ListenAddress := "0.0.0.0",
      NATSServerURL := "", rest := () }
  expStart := none
  expStopReturns := fun _ => true
  getConfigOrDie := some ⟨1⟩
  managerNew := fun _ => .ok ⟨2⟩
  addToScheme := fun _ => none
  getDefaultNatssURL := "nats://nats-streaming.natss.svc:4222"
  getDefaultClusterID := "knative-nats-streaming"
  newDispatcher := fun _ _ _ => .ok ⟨3⟩
  mgrAdd := fun _ _ => none
  provideController := fun _ _ _ => none
  mgrStart := fun _ => none

/-- A world in which `dispatcher.NewDispatcher` returns an error. -/
def dispatcherFailsWorld : World Unit :=
  { okWorld with newDispatcher := fun _ _ _ => .error ⟨"nats: no servers available"⟩ }


/-- A world in which the exporter fails to start and everything else succeeds. -/
def exporterFailsWorld : World Unit :=
  { okWorld with expStart := some ⟨"error serving http"⟩ }

/-- A world in which the exporter fails to start and `exp.Stop()` panics on the
exporter that never started; every other call succeeds. -/
def stopPanicsWorld : World Unit :=
  { okWorld with expStart := some ⟨"error serving http"⟩,
                 expStopReturns := fun r => r.isNone }

/-- A world in which `mgr.Add` returns an error. -/
def addFailsWorld : World Unit :=
  { okWorld with mgrAdd := fun _ _ => some ⟨"cannot add runnable"⟩ }

/-! ## Classifying effects -/

/-- Whether an effect is one of the calls made inside `startMonitoring`. -/
def Effect.isMonitoring {ρ : Type} : Effect ρ → Bool
  | .getDefaultExporterOptions => true
  | .newExporter _ => true
  | .expStart _ => true
  | .logPrintln _ _ => true
  | .expStop => true
  | .expWaitUntilDone => true
  | _ => false

/-- The startup steps of `main`, in source order. -/
inductive Step where
  | logger
  | startMonitoring
  | managerNew
  | addToScheme
  | newDispatcher
  | mgrAdd
  | provideController
  | mgrStart
deriving DecidableEq, Repr

/-- The position of a step in the source of `main`. -/
def Step.idx : Step → Nat
  | .logger => 0
  | .startMonitoring => 1
  | .managerNew => 2
  | .addToScheme => 3
  | .newDispatcher => 4
  | .mgrAdd => 5
  | .provideController => 6
  | .mgrStart => 7

/-- The steps in source order. -/
def stepOrder : List Step :=
  [.logger, .startMonitoring, .managerNew, .addToScheme, .newDispatcher, .mgrAdd,
   .provideController, .mgrStart]

/-- The step an effect belongs to: the statement of `main` that makes the call.
Log lines of `main` itself, the signal handler setup and the process exit
belong to no step. -/
def Effect.step {ρ : Type} : Effect ρ → Option Step
  | .zapNewProduction _ => some .logger
  | .getDefaultExporterOptions => some .startMonitoring
  | .newExporter _ => some .startMonitoring
  | .expStart _ => some .startMonitoring
  | .logPrintln _ _ => some .startMonitoring
  | .expStop => some .startMonitoring
  | .expWaitUntilDone => some .startMonitoring
  | .getConfigOrDie _ => some .managerNew
  | .managerNew _ _ => some .managerNew
  | .getScheme _ => some .addToScheme
  | .addToScheme _ _ => some .addToScheme
  | .getDefaultNatssURL => some .newDispatcher
  | .getDefaultClusterID => some .newDispatcher
  | .newDispatcher _ _ _ _ => some .newDispatcher
  | .mgrAdd _ _ _ => some .mgrAdd
  | .provideController _ _ _ _ => some .provideController
  | .mgrStart _ _ => some .mgrStart
  | .logFatalf _ _ => none
  | .loggerInfo _ => none
  | .setupSignalHandler => none
  | .loggerFatal _ _ => none
  | .osExit _ => none

/-- The error returned by a step of `main` whose result `main` checks, when the
effect is such a step and it failed. `exp.Start` is not among them: its error
is checked inside `startMonitoring`, which returns nothing. -/
def Effect.stepError {ρ : Type} : Effect ρ → Option GoError
  | .zapNewProduction err => err
  | .managerNew _ err => err
  | .addToScheme _ err => err
  | .newDispatcher _ _ _ err => err
  | .mgrAdd _ _ err => err
  | .provideController _ _ _ err => err
  | .mgrStart _ err => err
  | _ => none

/-- Whether the effects `post` are exactly a fatal log of `err` followed by the
process exit with status 1. -/
def isFatalExit {ρ : Type} (err : GoError) (post : List (Effect ρ)) : Prop :=
  ∃ msg, post = [Effect.loggerFatal msg err, Effect.osExit 1] ∨
    post = [Effect.logFatalf msg err, Effect.osExit 1]

/-- The run ends with exit status 1, and its last three calls are `call`, the
`logger.Fatal` of `err` with message `msg`, and the process exit. -/
def endsFatally {ρ : Type} (r : Run ρ) (call : Effect ρ) (msg : String) (err : GoError) :
    Prop :=
  r.outcome = Outcome.exited 1 ∧
  ∃ pre, r.trace = pre ++ [call, Effect.loggerFatal msg err, Effect.osExit 1]

/-- Whether an effect is a `dispatcher.NewDispatcher` call. -/
def Effect.isNewDispatcher {ρ : Type} : Effect ρ → Bool
  | .newDispatcher _ _ _ _ => true
  | _ => false

/-- Every failed step in the trace is directly followed by a fatal exit that
ends the trace. -/
def fatalAfterError {ρ : Type} : List (Effect ρ) → Prop
  | [] => True
  | e :: rest =>
    (∀ err, e.stepError = some err → isFatalExit err rest) ∧ fatalAfterError rest

end Dispatcher

/-! ## Reconciliation engine

`main` only constructs the dispatcher; the package that implements it,
`contrib/natss/pkg/dispatcher/dispatcher`, is not among the source files. The
definitions of this section follow sections 3, 4.1 and 4.2 of the
specification.
-/

namespace Reconciler

/-- Modelled from the spec: the dispatcher package is missing; a ChannelID is an
"opaque unique identifier for a logical channel (namespace-qualified name)". -/
abbrev ChannelID := String

/-- Modelled from the spec: the dispatcher package is missing; a
SubscriptionSpec is "{subscriberURI, replyURI (optional), deadLetterURI
(optional)}", a value type with structural equality. -/
structure SubscriptionSpec where
  subscriberURI : String
  replyURI : Option String
  deadLetterURI : Option String
deriving DecidableEq, Repr

/-- Modelled from the spec: the dispatcher package is missing; a
LiveSubscription is "{SubscriptionSpec, bus-subscription handle, worker
handle}". -/
structure LiveSubscription where
  spec : SubscriptionSpec
  handle : Nat
  worker : Nat
deriving DecidableEq, Repr

/-- Modelled from the spec: the dispatcher package is missing; a ChannelState is
"{ChannelID, mapping from SubscriptionSpec to LiveSubscription}". The mapping is
the list of its values, each carrying its key in `spec`. -/
structure ChannelState where
  id : ChannelID
  subs : List LiveSubscription
deriving DecidableEq, Repr

/-- Modelled from the spec: the dispatcher package is missing; the Subscription
Registry is an "in-memory map from channel identity to the set of active
subscription records". -/
abbrev Registry := List ChannelState

/-- Modelled from the spec: the dispatcher package is missing; a DesiredState is
a "snapshot {mapping ChannelID → set of SubscriptionSpec}". -/
abbrev DesiredState := List (ChannelID × List SubscriptionSpec)

/-- Modelled from the spec: the dispatcher package is missing; `desired[c]`, the
specs the snapshot assigns to channel `c`, empty when the channel is absent. -/
def DesiredState.subs (d : DesiredState) (c : ChannelID) : List SubscriptionSpec :=
  match d.find? (fun p => decide (p.1 = c)) with
  | some p => p.2
  | none => []

/-- Modelled from the spec: the dispatcher package is missing; the live
subscription records the registry holds for channel `c`. -/
def Registry.live : Registry → ChannelID → List LiveSubscription
  | [], _ => []
  | cs :: r, c => if cs.id = c then cs.subs ++ Registry.live r c else Registry.live r c

/-- Modelled from the spec: the dispatcher package is missing; the registry
operation `list(channel) -> set<SubscriptionSpec>`. -/
def Registry.list (r : Registry) (c : ChannelID) : List SubscriptionSpec :=
  (r.live c).map (fun l => l.spec)

/-- Modelled from the spec: the dispatcher package is missing; whether the
registry has a ChannelState for channel `c`. -/
def Registry.has (r : Registry) (c : ChannelID) : Bool :=
  r.any (fun cs => decide (cs.id = c))

/-- Modelled from the spec: the dispatcher package is missing; the channels
present in the registry. -/
def Registry.channels (r : Registry) : List ChannelID :=
  r.map (fun cs => cs.id)

/-- Modelled from the spec: the dispatcher package is missing; the registry
lookup of the live record stored under `(channel, spec)`. -/
def Registry.lookup (r : Registry) (c : ChannelID) (s : SubscriptionSpec) :
    Option LiveSubscription :=
  (r.live c).find? (fun l => decide (l.spec = s))

/-- Modelled from the spec: the dispatcher package is missing; replaces the
ChannelState of channel `c` by one holding `subs`. -/
def Registry.put (r : Registry) (c : ChannelID) (subs : List LiveSubscription) : Registry :=
  { id := c, subs := subs } :: r.filter (fun cs => !decide (cs.id = c))

/-- Modelled from the spec: the dispatcher package is missing; the registry
operation `add(channel, spec, handle, worker)`; the ChannelState "is created on
first subscription for a channel". -/
def Registry.add (r : Registry) (c : ChannelID) (l : LiveSubscription) : Registry :=
  r.put c (l :: (r.live c).filter (fun x => !decide (x.spec = l.spec)))

/-- Modelled from the spec: the dispatcher package is missing; the registry
operation `remove(channel, spec) -> handle`, "idempotent: removing an absent
spec is a no-op, not an error". -/
def Registry.remove (r : Registry) (c : ChannelID) (s : SubscriptionSpec) :
    Registry × Option Nat :=
  match r.lookup c s with
  | none => (r, none)
  | some l => (r.put c ((r.live c).filter (fun x => !decide (x.spec = s))), some l.handle)

/-- Modelled from the spec: the dispatcher package is missing; "Channels with an
empty resulting subscription set are pruned". -/
def Registry.prune (r : Registry) (c : ChannelID) : Registry :=
  if r.live c = [] then r.filter (fun cs => !decide (cs.id = c)) else r

/-- Modelled from the spec: the dispatcher package is missing; the calls the
Reconciler issues against the Bus Connection and the Dispatch Workers, with the
result of each bus call. -/
inductive Event where
  | subscribe (c : ChannelID) (s : SubscriptionSpec) (ok : Bool)
  | unsubscribe (handle : Nat) (ok : Bool)
  | startWorker (worker : Nat)
  | stopWorker (worker : Nat)
deriving DecidableEq, Repr

/-- Modelled from the spec: the dispatcher package is missing; whether an event
is a bus subscribe or unsubscribe call. -/
def Event.isBusCall : Event → Bool
  | .subscribe _ _ _ => true
  | .unsubscribe _ _ => true
  | _ => false

/-- Modelled from the spec: the dispatcher package is missing; the Bus
Connection as seen by the Reconciler: whether the subscribe or unsubscribe call
issued after `n` earlier events succeeds. -/
structure Bus where
  subscribeOk : Nat → ChannelID → SubscriptionSpec → Bool
  unsubscribeOk : Nat → Nat → Bool

/-- Modelled from the spec: the dispatcher package is missing; a failure
reported by `apply`. -/
inductive ApplyError where
  | subscribeFailed (c : ChannelID) (s : SubscriptionSpec)
  | unsubscribeFailed (c : ChannelID) (s : SubscriptionSpec)
deriving DecidableEq, Repr

/-- Modelled from the spec: the dispatcher package is missing; the state of the
dispatcher: the live registry, the next fresh bus and worker handles, the calls
issued so far and the failures reported by the last `apply`. -/
structure State where
  registry : Registry
  nextHandle : Nat
  nextWorker : Nat
  log : List Event
  errors : List ApplyError
deriving DecidableEq, Repr

/-- Modelled from the spec: the dispatcher package is missing;
`toAdd = desired[c] − live[c]`. -/
def toAdd (desired : DesiredState) (r : Registry) (c : ChannelID) : List SubscriptionSpec :=
  ((desired.subs c).filter (fun s => !decide (s ∈ r.list c))).dedup

/-- Modelled from the spec: the dispatcher package is missing;
`toRemove = live[c] − desired[c]`. -/
def toRemove (desired : DesiredState) (r : Registry) (c : ChannelID) : List SubscriptionSpec :=
  ((r.list c).filter (fun s => !decide (s ∈ desired.subs c))).dedup

/-- Modelled from the spec: the dispatcher package is missing; one removal: "For
toRemove, unsubscribe from the bus and stop the corresponding Dispatch Worker
... before removing the registry entry". A failed unsubscribe is reported and
leaves the entry in place for the next `apply`. -/
def removeOne (bus : Bus) (c : ChannelID) (st : State) (s : SubscriptionSpec) : State :=
  match st.registry.lookup c s with
  | none => st
  | some l =>
    let ok := bus.unsubscribeOk st.log.length l.handle
    let st := { st with log := st.log ++ [Event.unsubscribe l.handle ok] }
    if ok then
      { st with log := st.log ++ [Event.stopWorker l.worker],
                registry := (st.registry.remove c s).1 }
    else
      { st with errors := st.errors ++ [ApplyError.unsubscribeFailed c s] }

/-- Modelled from the spec: the dispatcher package is missing; one addition:
"For toAdd, subscribe to the bus for (channel, spec) — using a fresh bus-level
consumer — then start a Dispatch Worker bound to that subscription, then
register it". A failed subscribe "is reported but does not abort reconciliation
of the remaining pairs; the registry reflects only successfully subscribed
entries". -/
def addOne (bus : Bus) (c : ChannelID) (st : State) (s : SubscriptionSpec) : State :=
  let ok := bus.subscribeOk st.log.length c s
  let st := { st with log := st.log ++ [Event.subscribe c s ok] }
  if ok then
    let l : LiveSubscription := { spec := s, handle := st.nextHandle, worker := st.nextWorker }
    { st with nextHandle := st.nextHandle + 1,
              nextWorker := st.nextWorker + 1,
              log := st.log ++ [Event.startWorker l.worker],
              registry := st.registry.add c l }
  else
    { st with errors := st.errors ++ [ApplyError.subscribeFailed c s] }

/-- Modelled from the spec: the dispatcher package is missing; reconciliation of
one channel: the two set differences are computed, "removals are applied before
additions for a given channel", and the channel is pruned when its resulting
subscription set is empty. -/
def applyChannel (bus : Bus) (desired : DesiredState) (st : State) (c : ChannelID) : State :=
  let removals := toRemove desired st.registry c
  let additions := toAdd desired st.registry c
  let st := removals.foldl (removeOne bus c) st
  let st := additions.foldl (addOne bus c) st
  { st with registry := st.registry.prune c }

/-- Modelled from the spec: the dispatcher package is missing; the Reconciler
contract `apply(desired DesiredState) -> error`: "for each channel present in
either `desired` or the registry" the channel is reconciled. The reported
failures are in `errors` of the result; an empty list is a successful apply. -/
def apply (bus : Bus) (desired : DesiredState) (st : State) : State :=
  let chans := (desired.map Prod.fst ++ st.registry.channels).dedup
  chans.foldl (applyChannel bus desired) { st with errors := [] }

/-- The registry holds for channel `c` exactly the specs `desired` assigns to it,
and holds no ChannelState for `c` when that set is empty. -/
def Converged (desired : DesiredState) (r : Registry) (c : ChannelID) : Prop :=
  (∀ s, s ∈ r.list c ↔ s ∈ desired.subs c) ∧ (r.live c = [] → r.has c = false)

/-- A bus on which every call succeeds. -/
def okBus : Bus where
  subscribeOk := fun _ _ _ => true
  unsubscribeOk := fun _ _ => true

/-- A subscription to `http://sub1`. -/
def sub1 : SubscriptionSpec :=
  { subscriberURI := "http://sub1", replyURI := none, deadLetterURI := none }

/-- A subscription to `http://sub2` with a reply address. -/
def sub2 : SubscriptionSpec :=
  { subscriberURI := "http://sub2", replyURI := some "http://reply", deadLetterURI := none }

/-- The empty dispatcher state. -/
def emptyState : State :=
  { registry := [], nextHandle := 0, nextWorker := 0, log := [], errors := [] }

/-- A first desired state. -/
def desiredA : DesiredState := [("ns/a", [sub1, sub2]), ("ns/b", [sub1])]

/-- A second desired state: channel `ns/a` keeps one subscription, channel
`ns/b` becomes empty and channel `ns/c` appears. -/
def desiredB : DesiredState := [("ns/a", [sub2]), ("ns/b", []), ("ns/c", [sub1])]

end Reconciler

namespace Dispatcher

/-! ## The shape of `startMonitoring` and of `main` -/

/-- The calls of `startMonitoring`, by what `exp.Start` returns and whether
`exp.Stop` returns. -/
theorem startMonitoring_trace {ρ : Type} (w : World ρ) :
    (startMonitoring w).trace =
      [Effect.getDefaultExporterOptions,
       Effect.newExporter
         { GetVarz := true, GetSubz := true, GetConnz := true, GetRoutez := true,
           ListenPort := 9090, ListenAddress := "localhost",
           NATSServerURL := "http://nats-streaming.natss.svc.cluster.local:8222",
           rest := w.getDefaultExporterOptions.rest },
       Effect.expStart w.expStart] ++
      (match w.expStart with
        | some err => [Effect.logPrintln "cannot start nats prometheus exporter." err]
        | none => []) ++
      [Effect.expStop] ++
      (if w.expStopReturns w.expStart = true then [Effect.expWaitUntilDone] else []) := by
  cases hs : w.expStart with
  | none =>
    cases hr : w.expStopReturns none <;>
      simp [startMonitoring, Exporter.Start, Exporter.Stop, Exporter.WaitUntilDone, NewExporter,
        hs, hr]
  | some err =>
    cases hr : w.expStopReturns (some err) <;>
      simp [startMonitoring, Exporter.Start, Exporter.Stop, Exporter.WaitUntilDone, NewExporter,
        hs, hr]

/-- The function `startMonitoring` returns when `exp.Stop` returns and ends in
a panic otherwise; it never blocks. -/
theorem startMonitoring_outcome {ρ : Type} (w : World ρ) :
    (startMonitoring w).outcome =
      if w.expStopReturns w.expStart = true then Outcome.returned else Outcome.panicked := by
  cases hs : w.expStart with
  | none =>
    cases hr : w.expStopReturns none <;>
      simp [startMonitoring, Exporter.Start, Exporter.Stop, Exporter.WaitUntilDone, NewExporter,
        hs, hr]
  | some err =>
    cases hr : w.expStopReturns (some err) <;>
      simp [startMonitoring, Exporter.Start, Exporter.Stop, Exporter.WaitUntilDone, NewExporter,
        hs, hr]

/-- The exporter that `startMonitoring` leaves behind has the configured
options. -/
theorem startMonitoring_exporter_opts {ρ : Type} (w : World ρ) :
    (startMonitoring w).exporter.opts =
      { GetVarz := true, GetSubz := true, GetConnz := true, GetRoutez := true,
        ListenPort := 9090, ListenAddress := "localhost",
        NATSServerURL := "http://nats-streaming.natss.svc.cluster.local:8222",
        rest := w.getDefaultExporterOptions.rest } := by
  cases hs : w.expStart with
  | none =>
    cases hr : w.expStopReturns none <;>
      simp [startMonitoring, Exporter.Start, Exporter.Stop, Exporter.WaitUntilDone, NewExporter,
        hs, hr]
  | some err =>
    cases hr : w.expStopReturns (some err) <;>
      simp [startMonitoring, Exporter.Start, Exporter.Stop, Exporter.WaitUntilDone, NewExporter,
        hs, hr]

/-- In every world the exporter is not running when `startMonitoring` returns. -/
theorem startMonitoring_leaves_exporter_stopped {ρ : Type} (w : World ρ)
    (h : (startMonitoring w).outcome = Outcome.returned) :
    (startMonitoring w).exporter.running = false := by
  revert h
  cases hs : w.expStart with
  | none =>
    cases hr : w.expStopReturns none <;>
      simp [startMonitoring, Exporter.Start, Exporter.Stop, Exporter.WaitUntilDone, NewExporter,
        hs, hr]
  | some err =>
    cases hr : w.expStopReturns (some err) <;>
      simp [startMonitoring, Exporter.Start, Exporter.Stop, Exporter.WaitUntilDone, NewExporter,
        hs, hr]

/-- The run of `main` in every world, following the outcome of each call in
source order. -/
theorem main_shape {ρ : Type} (w : World ρ) :
    (∃ err, w.zapNewProduction = .error err ∧
      main w = ⟨[Effect.zapNewProduction (some err),
        Effect.logFatalf "Unable to create logger: %v" err, Effect.osExit 1], .exited 1⟩) ∨
    ∃ lg, w.zapNewProduction = .ok lg ∧
     (((startMonitoring w).outcome ≠ .returned ∧
        main w = ⟨Effect.zapNewProduction none :: (startMonitoring w).trace,
          (startMonitoring w).outcome⟩) ∨
      ((startMonitoring w).outcome = .returned ∧
       ((w.getConfigOrDie = none ∧
          main w = ⟨Effect.zapNewProduction none :: (startMonitoring w).trace ++
            [Effect.getConfigOrDie none, Effect.osExit 1], .exited 1⟩) ∨
        ∃ cfg, w.getConfigOrDie = some cfg ∧
         ((∃ err, w.managerNew cfg = .error err ∧
            main w = ⟨Effect.zapNewProduction none :: (startMonitoring w).trace ++
              [Effect.getConfigOrDie (some cfg), Effect.managerNew cfg (some err),
               Effect.loggerFatal "Error starting up." err, Effect.osExit 1], .exited 1⟩) ∨
          ∃ mgr, w.managerNew cfg = .ok mgr ∧
           ((∃ err, w.addToScheme mgr = some err ∧
              main w = ⟨Effect.zapNewProduction none :: (startMonitoring w).trace ++
                [Effect.getConfigOrDie (some cfg), Effect.managerNew cfg none,
                 Effect.getScheme mgr, Effect.addToScheme mgr (some err),
                 Effect.loggerFatal "Unable to add eventingv1alpha1 scheme" err,
                 Effect.osExit 1], .exited 1⟩) ∨
            (w.addToScheme mgr = none ∧
             ((∃ err, w.newDispatcher w.getDefaultNatssURL w.getDefaultClusterID lg = .error err ∧
                main w = ⟨Effect.zapNewProduction none :: (startMonitoring w).trace ++
                  [Effect.getConfigOrDie (some cfg), Effect.managerNew cfg none,
                   Effect.getScheme mgr, Effect.addToScheme mgr none,
                   Effect.loggerInfo "Dispatcher starting...", Effect.getDefaultNatssURL,
                   Effect.getDefaultClusterID,
                   Effect.newDispatcher w.getDefaultNatssURL w.getDefaultClusterID lg (some err),
                   Effect.loggerFatal "Unable to create NATSS dispatcher." err,
                   Effect.osExit 1], .exited 1⟩) ∨
              ∃ d, w.newDispatcher w.getDefaultNatssURL w.getDefaultClusterID lg = .ok d ∧
               ((∃ err, w.mgrAdd mgr d = some err ∧
                  main w = ⟨Effect.zapNewProduction none :: (startMonitoring w).trace ++
                    [Effect.getConfigOrDie (some cfg), Effect.managerNew cfg none,
                     Effect.getScheme mgr, Effect.addToScheme mgr none,
                     Effect.loggerInfo "Dispatcher starting...", Effect.getDefaultNatssURL,
                     Effect.getDefaultClusterID,
                     Effect.newDispatcher w.getDefaultNatssURL w.getDefaultClusterID lg none,
                     Effect.mgrAdd mgr d (some err),
                     Effect.loggerFatal "Unable to add the dispatcher" err,
                     Effect.osExit 1], .exited 1⟩) ∨
                (w.mgrAdd mgr d = none ∧
                 ((∃ err, w.provideController d mgr lg = some err ∧
                    main w = ⟨Effect.zapNewProduction none :: (startMonitoring w).trace ++
                      [Effect.getConfigOrDie (some cfg), Effect.managerNew cfg none,
                       Effect.getScheme mgr, Effect.addToScheme mgr none,
                       Effect.loggerInfo "Dispatcher starting...", Effect.getDefaultNatssURL,
                       Effect.getDefaultClusterID,
                       Effect.newDispatcher w.getDefaultNatssURL w.getDefaultClusterID lg none,
                       Effect.mgrAdd mgr d none,
                       Effect.provideController d mgr lg (some err),
                       Effect.loggerFatal "Unable to create Channel controller" err,
                       Effect.osExit 1], .exited 1⟩) ∨
                  (w.provideController d mgr lg = none ∧
                   ((∃ err, w.mgrStart mgr = some err ∧
                      main w = ⟨Effect.zapNewProduction none :: (startMonitoring w).trace ++
                        [Effect.getConfigOrDie (some cfg), Effect.managerNew cfg none,
                         Effect.getScheme mgr, Effect.addToScheme mgr none,
                         Effect.loggerInfo "Dispatcher starting...", Effect.getDefaultNatssURL,
                         Effect.getDefaultClusterID,
                         Effect.newDispatcher w.getDefaultNatssURL w.getDefaultClusterID lg none,
                         Effect.mgrAdd mgr d none,
                         Effect.provideController d mgr lg none,
                         Effect.loggerInfo "Dispatcher controller starting...",
                         Effect.setupSignalHandler,
                         Effect.mgrStart mgr (some err),
                         Effect.loggerFatal "Manager.Start() returned an error" err,
                         Effect.osExit 1], .exited 1⟩) ∨
                    (w.mgrStart mgr = none ∧
                      main w = ⟨Effect.zapNewProduction none :: (startMonitoring w).trace ++
                        [Effect.getConfigOrDie (some cfg), Effect.managerNew cfg none,
                         Effect.getScheme mgr, Effect.addToScheme mgr none,
                         Effect.loggerInfo "Dispatcher starting...", Effect.getDefaultNatssURL,
                         Effect.getDefaultClusterID,
                         Effect.newDispatcher w.getDefaultNatssURL w.getDefaultClusterID lg none,
                         Effect.mgrAdd mgr d none,
                         Effect.provideController d mgr lg none,
                         Effect.loggerInfo "Dispatcher controller starting...",
                         Effect.setupSignalHandler,
                         Effect.mgrStart mgr none], .returned⟩))))))))))))) := by
  cases hz : w.zapNewProduction with
  | error err => exact Or.inl ⟨err, rfl, by simp [main, hz]⟩
  | ok lg =>
    refine Or.inr ⟨lg, rfl, ?_⟩
    by_cases hsm : (startMonitoring w).outcome = .returned
    swap
    · exact Or.inl ⟨hsm, by simp [main, hz, hsm]⟩
    refine Or.inr ⟨hsm, ?_⟩
    cases hc : w.getConfigOrDie with
    | none => exact Or.inl ⟨rfl, by simp [main, hz, hsm, hc]⟩
    | some cfg =>
      refine Or.inr ⟨cfg, rfl, ?_⟩
      cases hm : w.managerNew cfg with
      | error err => exact Or.inl ⟨err, rfl, by simp [main, hz, hsm, hc, hm, loggerFatal]⟩
      | ok mgr =>
        refine Or.inr ⟨mgr, rfl, ?_⟩
        cases hs : w.addToScheme mgr with
        | some err => exact Or.inl ⟨err, rfl, by simp [main, hz, hsm, hc, hm, hs, loggerFatal]⟩
        | none =>
          refine Or.inr ⟨rfl, ?_⟩
          cases hd : w.newDispatcher w.getDefaultNatssURL w.getDefaultClusterID lg with
          | error err =>
            exact Or.inl ⟨err, rfl, by simp [main, hz, hsm, hc, hm, hs, hd, loggerFatal]⟩
          | ok d =>
            refine Or.inr ⟨d, rfl, ?_⟩
            cases ha : w.mgrAdd mgr d with
            | some err =>
              exact Or.inl ⟨err, rfl, by simp [main, hz, hsm, hc, hm, hs, hd, ha, loggerFatal]⟩
            | none =>
              refine Or.inr ⟨rfl, ?_⟩
              cases hp : w.provideController d mgr lg with
              | some err =>
                exact Or.inl ⟨err, rfl,
                  by simp [main, hz, hsm, hc, hm, hs, hd, ha, hp, loggerFatal]⟩
              | none =>
                refine Or.inr ⟨rfl, ?_⟩
                cases hst : w.mgrStart mgr with
                | some err =>
                  exact Or.inl ⟨err, rfl,
                    by simp [main, hz, hsm, hc, hm, hs, hd, ha, hp, hst, loggerFatal]⟩
                | none =>
                  exact Or.inr ⟨rfl,
                    by simp [main, hz, hsm, hc, hm, hs, hd, ha, hp, hst, loggerFatal]⟩

/-- Every call of `startMonitoring` is a monitoring call. -/
theorem isMonitoring_of_mem_startMonitoring {ρ : Type} (w : World ρ) (e : Effect ρ)
    (h : e ∈ (startMonitoring w).trace) : e.isMonitoring = true := by
  rw [startMonitoring_trace] at h
  simp only [List.mem_append] at h
  rcases h with ((h | h) | h) | h
  · simp only [List.mem_cons, List.mem_singleton, List.not_mem_nil, or_false] at h
    rcases h with h | h | h <;> subst h <;> rfl
  · cases hs : w.expStart with
    | none => simp [hs] at h
    | some err =>
      simp only [hs, List.mem_singleton] at h
      subst h
      rfl
  · simp only [List.mem_singleton] at h
    subst h
    rfl
  · split at h
    · simp only [List.mem_singleton] at h
      subst h
      rfl
    · simp at h

/-- A call that is not a monitoring call is not made by `startMonitoring`. -/
theorem not_mem_startMonitoring {ρ : Type} (w : World ρ) (e : Effect ρ)
    (h : e.isMonitoring = false) : e ∉ (startMonitoring w).trace := by
  intro hmem
  rw [isMonitoring_of_mem_startMonitoring w e hmem] at h
  exact absurd h (by decide)

/-- A list that ends with `post` still does so behind a first element and a
block of further elements. -/
theorem exists_pre_of_drop {α : Type} (a : α) (sm l post : List α) (n : Nat)
    (h : l.drop n = post) : ∃ pre, a :: sm ++ l = pre ++ post :=
  ⟨a :: sm ++ l.take n, by rw [← h, List.append_assoc, List.take_append_drop]⟩

/-! ## Theorems about the startup sequence -/

/-- C2: whenever `dispatcher.NewDispatcher` returns an error `err`, the run ends
with `logger.Fatal` carrying that error followed by the process exit, directly
after the failed call, and no `mgr.Add`, `channel.ProvideController` or
`mgr.Start` call occurs in the run. -/
theorem dispatcher_construction_failure_is_fatal {ρ : Type} (w : World ρ)
    (url clusterID : String) (logger : Logger) (err : GoError)
    (h : Effect.newDispatcher url clusterID logger (some err) ∈ (main w).trace) :
    (main w).outcome = Outcome.exited 1 ∧
    (∃ pre, (main w).trace = pre ++ [Effect.newDispatcher url clusterID logger (some err),
        Effect.loggerFatal "Unable to create NATSS dispatcher." err, Effect.osExit 1]) ∧
    (∀ mgr d r, Effect.mgrAdd mgr d r ∉ (main w).trace) ∧
    (∀ d mgr lg r, Effect.provideController d mgr lg r ∉ (main w).trace) ∧
    (∀ mgr r, Effect.mgrStart mgr r ∉ (main w).trace) := by
  obtain ⟨e, _, hm⟩ | ⟨lg, _, ⟨_, hm⟩ | ⟨_, ⟨_, hm⟩ | ⟨cfg, _, ⟨e, _, hm⟩ | ⟨mgr, _,
    ⟨e, _, hm⟩ | ⟨_, ⟨e, _, hm⟩ | ⟨d, _, ⟨e, _, hm⟩ | ⟨_, ⟨e, _, hm⟩ | ⟨_, ⟨e, _, hm⟩ |
    ⟨_, hm⟩⟩⟩⟩⟩⟩⟩⟩⟩ := main_shape w
  all_goals rw [hm] at h ⊢
  all_goals simp [not_mem_startMonitoring, Effect.isMonitoring] at h
  obtain ⟨rfl, rfl, rfl, rfl⟩ := h
  refine ⟨rfl, exists_pre_of_drop _ _ _ _ 7 rfl, ?_, ?_, ?_⟩ <;>
    simp [not_mem_startMonitoring, Effect.isMonitoring]

/-- Witness for C2 in a world where the dispatcher cannot be constructed. -/
theorem dispatcher_construction_failure_is_fatal_witness :
    Effect.newDispatcher "nats://nats-streaming.natss.svc:4222" "knative-nats-streaming" ⟨0⟩
        (some ⟨"nats: no servers available"⟩) ∈ (main dispatcherFailsWorld).trace ∧
    (main dispatcherFailsWorld).outcome = Outcome.exited 1 :=
  ⟨by decide, (dispatcher_construction_failure_is_fatal dispatcherFailsWorld
    "nats://nats-streaming.natss.svc:4222" "knative-nats-streaming" ⟨0⟩
    ⟨"nats: no servers available"⟩ (by decide)).1⟩

/-- C1 (fails on the code): in the run where every call succeeds, the exporter
is started and then stopped inside `startMonitoring`, so `exp.Stop` precedes
`mgr.Start` in the trace of `main` and the exporter is not running when
`startMonitoring` returns. -/
theorem exporter_stopped_before_manager_start :
    (startMonitoring okWorld).exporter.running = false ∧
    ∃ pre post, (main okWorld).trace = pre ++ Effect.mgrStart ⟨2⟩ none :: post ∧
      Effect.expStart none ∈ pre ∧ Effect.expStop ∈ pre := by
  refine ⟨by decide, List.take 18 (main okWorld).trace, [], by decide, by decide, by decide⟩

/-- C7: the options passed to `exporter.NewExporter` are the default options with
`GetConnz`, `GetSubz`, `GetRoutez` and `GetVarz` set to true, `ListenPort` 9090,
`ListenAddress` "localhost" and `NATSServerURL` the NATS streaming monitoring
URL; all remaining options are the defaults, and the exporter is created with
exactly these options. -/
theorem exporter_options_as_configured {ρ : Type} (w : World ρ) (opts : ExporterOptions ρ) :
    (Effect.newExporter opts ∈ (startMonitoring w).trace ↔
      opts = { GetVarz := true, GetSubz := true, GetConnz := true, GetRoutez := true,
               ListenPort := 9090, ListenAddress := "localhost",
               NATSServerURL := "http://nats-streaming.natss.svc.cluster.local:8222",
               rest := w.getDefaultExporterOptions.rest }) ∧
    (Effect.newExporter opts ∈ (startMonitoring w).trace →
      (startMonitoring w).exporter.opts = opts) := by
  rw [startMonitoring_trace, startMonitoring_exporter_opts]
  constructor
  · cases w.expStart <;> simp only [] <;> split <;> simp
  · cases w.expStart <;> simp only [] <;> split <;> simp <;> intro h <;> exact h.symm

/-! ## Order of the steps and fatal exits -/

/-- A trace that passes `fatalAfterError` ends in a fatal exit right after any
failed step, wherever the trace is cut. -/
theorem fatalAfterError_cut {ρ : Type} (pre : List (Effect ρ)) :
    ∀ (t : List (Effect ρ)), fatalAfterError t →
      ∀ e post err, t = pre ++ e :: post → e.stepError = some err → isFatalExit err post := by
  induction pre with
  | nil =>
    intro t h e post err ht he
    subst ht
    exact h.1 err he
  | cons a pre ih =>
    intro t h e post err ht he
    subst ht
    exact ih _ h.2 e post err rfl he

/-- Calls that return no error in front of a trace keep `fatalAfterError`. -/
theorem fatalAfterError_append {ρ : Type} (pre rest : List (Effect ρ))
    (h : ∀ e ∈ pre, e.stepError = none) (hr : fatalAfterError rest) :
    fatalAfterError (pre ++ rest) := by
  induction pre with
  | nil => exact hr
  | cons a pre ih =>
    refine ⟨?_, ih (fun e he => h e (List.mem_cons_of_mem _ he))⟩
    intro err herr
    rw [h a (List.mem_cons_self _ _)] at herr
    exact absurd herr (by simp)

/-- A monitoring call is not a step whose error `main` checks. -/
theorem stepError_of_isMonitoring {ρ : Type} (e : Effect ρ) (h : e.isMonitoring = true) :
    e.stepError = none := by
  cases e <;> first | rfl | exact absurd h (by simp [Effect.isMonitoring])

/-- The calls up to the end of `startMonitoring` return no error to `main`. -/
theorem stepError_monitoring_block {ρ : Type} (w : World ρ) :
    ∀ e ∈ Effect.zapNewProduction none :: (startMonitoring w).trace, e.stepError = none := by
  intro e he
  rcases List.mem_cons.mp he with h | h
  · subst h
    rfl
  · exact stepError_of_isMonitoring e (isMonitoring_of_mem_startMonitoring w e h)

/-- The calls of `startMonitoring` are four to six calls of the step
`startMonitoring`. -/
theorem startMonitoring_labels {ρ : Type} (w : World ρ) :
    ∃ n, 4 ≤ n ∧ n ≤ 6 ∧
      (startMonitoring w).trace.filterMap Effect.step = List.replicate n Step.startMonitoring := by
  rw [startMonitoring_trace]
  cases hs : w.expStart with
  | none =>
    cases hr : w.expStopReturns none
    · exact ⟨4, by decide, by decide, by simp [Effect.step]⟩
    · exact ⟨5, by decide, by decide, by simp [Effect.step]⟩
  | some err =>
    cases hr : w.expStopReturns (some err)
    · exact ⟨5, by decide, by decide, by simp [Effect.step]⟩
    · exact ⟨6, by decide, by decide, by simp [Effect.step]⟩

/-- The labels of the calls of `main` never go back to an earlier step, and the
steps visited form an initial segment of the source order. -/
theorem main_steps_in_source_order {ρ : Type} (w : World ρ) :
    ((main w).trace.filterMap Effect.step).Pairwise (fun a b => a.idx ≤ b.idx) ∧
    ((main w).trace.filterMap Effect.step).dedup <+: stepOrder := by
  obtain ⟨n, h4, h6, hn⟩ := startMonitoring_labels w
  obtain ⟨e, _, hm⟩ | ⟨lg, _, ⟨hsm, hm⟩ | ⟨hsm, ⟨_, hm⟩ | ⟨cfg, _, ⟨e, _, hm⟩ | ⟨mgr, _,
    ⟨e, _, hm⟩ | ⟨_, ⟨e, _, hm⟩ | ⟨d, _, ⟨e, _, hm⟩ | ⟨_, ⟨e, _, hm⟩ | ⟨_, ⟨e, _, hm⟩ |
    ⟨_, hm⟩⟩⟩⟩⟩⟩⟩⟩⟩ := main_shape w
  all_goals rw [hm]
  all_goals simp only [List.filterMap_cons, List.filterMap_nil, List.filterMap_append,
    Effect.step, hn]
  all_goals interval_cases n <;> decide

/-- A logger error followed by `log.Fatalf` and the exit is a fatal exit. -/
theorem isFatalExit_logFatalf {ρ : Type} (msg : String) (err : GoError) :
    @isFatalExit ρ err [Effect.logFatalf msg err, Effect.osExit 1] :=
  ⟨msg, Or.inr rfl⟩

/-- A `logger.Fatal` of `err` followed by the exit is a fatal exit for `err`. -/
theorem isFatalExit_loggerFatal {ρ : Type} (msg : String) (err : GoError) :
    @isFatalExit ρ err [Effect.loggerFatal msg err, Effect.osExit 1] :=
  ⟨msg, Or.inl rfl⟩

/-- Every run of `main` passes `fatalAfterError`. -/
theorem main_fatalAfterError {ρ : Type} (w : World ρ) : fatalAfterError (main w).trace := by
  obtain ⟨e, _, hm⟩ | ⟨lg, _, ⟨hsm, hm⟩ | ⟨hsm, ⟨_, hm⟩ | ⟨cfg, _, ⟨e, _, hm⟩ | ⟨mgr, _,
    ⟨e, _, hm⟩ | ⟨_, ⟨e, _, hm⟩ | ⟨d, _, ⟨e, _, hm⟩ | ⟨_, ⟨e, _, hm⟩ | ⟨_, ⟨e, _, hm⟩ |
    ⟨_, hm⟩⟩⟩⟩⟩⟩⟩⟩⟩ := main_shape w
  all_goals rw [hm]
  · simp only [fatalAfterError, Effect.stepError, reduceCtorEq, false_implies,
      implies_true, true_and, and_true, Option.some.injEq, forall_eq', isFatalExit_logFatalf]
  · have := fatalAfterError_append _ [] (stepError_monitoring_block w) trivial
    simpa using this
  all_goals refine fatalAfterError_append _ _ (stepError_monitoring_block w) ?_
  all_goals simp only [fatalAfterError, Effect.stepError, reduceCtorEq, false_implies,
    implies_true, true_and, and_true, Option.some.injEq, forall_eq', isFatalExit_loggerFatal]

/-- A failed step leaves `main` with exit status 1. -/
theorem main_failed_step_exits {ρ : Type} (w : World ρ) :
    ∀ e ∈ (main w).trace, ∀ err, e.stepError = some err →
      (main w).outcome = Outcome.exited 1 := by
  have hblock := stepError_monitoring_block w
  have hnone : ∀ (l : List (Effect ρ)), (∀ e ∈ l, e.stepError = none) →
      ∀ e ∈ l, ∀ err, e.stepError = some err → False := by
    intro l hl e he err herr
    rw [hl e he] at herr
    exact absurd herr (by simp)
  obtain ⟨e, _, hm⟩ | ⟨lg, _, ⟨hsm, hm⟩ | ⟨hsm, ⟨_, hm⟩ | ⟨cfg, _, ⟨e, _, hm⟩ | ⟨mgr, _,
    ⟨e, _, hm⟩ | ⟨_, ⟨e, _, hm⟩ | ⟨d, _, ⟨e, _, hm⟩ | ⟨_, ⟨e, _, hm⟩ | ⟨_, ⟨e, _, hm⟩ |
    ⟨_, hm⟩⟩⟩⟩⟩⟩⟩⟩⟩ := main_shape w
  all_goals rw [hm]
  · intro _ _ _ _; rfl
  · intro e0 he0 err herr
    exact absurd herr (by rw [hblock e0 he0]; simp)
  · intro _ _ _ _; rfl
  · intro _ _ _ _; rfl
  · intro _ _ _ _; rfl
  · intro _ _ _ _; rfl
  · intro _ _ _ _; rfl
  · intro _ _ _ _; rfl
  · intro _ _ _ _; rfl
  · intro e0 he0 err herr
    exfalso
    refine hnone _ ?_ e0 he0 err herr
    rw [List.forall_mem_append]
    exact ⟨hblock, by simp [Effect.stepError]⟩

/-- A started manager is preceded by the successful calls of all six earlier
fallible steps, and a run that returns has visited every step. -/
theorem main_start_requires_success {ρ : Type} (w : World ρ) :
    (∀ mgr r, Effect.mgrStart mgr r ∈ (main w).trace → ∃ lg cfg d,
      Effect.zapNewProduction none ∈ (main w).trace ∧
      Effect.managerNew cfg none ∈ (main w).trace ∧
      Effect.addToScheme mgr none ∈ (main w).trace ∧
      Effect.newDispatcher w.getDefaultNatssURL w.getDefaultClusterID lg none ∈ (main w).trace ∧
      Effect.mgrAdd mgr d none ∈ (main w).trace ∧
      Effect.provideController d mgr lg none ∈ (main w).trace) ∧
    ((main w).outcome = Outcome.returned →
      ((main w).trace.filterMap Effect.step).dedup = stepOrder) := by
  obtain ⟨n, h4, h6, hn⟩ := startMonitoring_labels w
  obtain ⟨e, _, hm⟩ | ⟨lg, _, ⟨hsm, hm⟩ | ⟨hsm, ⟨_, hm⟩ | ⟨cfg, _, ⟨e, _, hm⟩ | ⟨mgr, _,
    ⟨e, _, hm⟩ | ⟨_, ⟨e, _, hm⟩ | ⟨d, _, ⟨e, _, hm⟩ | ⟨_, ⟨e, _, hm⟩ | ⟨_, ⟨e, _, hm⟩ |
    ⟨_, hm⟩⟩⟩⟩⟩⟩⟩⟩⟩ := main_shape w
  all_goals rw [hm]
  all_goals constructor
  all_goals first
    | (intro hout
       first
         | (simp at hout; done)
         | exact absurd hout hsm
         | (simp only [List.filterMap_cons, List.filterMap_nil, List.filterMap_append,
              Effect.step, hn]
            interval_cases n <;> decide))
    | (intro mgr0 r0 hmem
       first
         | (simp [not_mem_startMonitoring, Effect.isMonitoring] at hmem; done)
         | (simp [not_mem_startMonitoring, Effect.isMonitoring] at hmem
            obtain ⟨rfl, rfl⟩ := hmem
            exact ⟨lg, cfg, d, by simp, by simp, by simp, by simp, by simp, by simp⟩))

/-- A run built from the monitoring block and a tail that ends in a failed
call, its fatal log and the exit ends fatally. -/
theorem endsFatally_mk {ρ : Type} (a : Effect ρ) (sm l : List (Effect ρ)) (call : Effect ρ)
    (msg : String) (err : GoError) (n : Nat)
    (h : l.drop n = [call, Effect.loggerFatal msg err, Effect.osExit 1]) :
    endsFatally ⟨a :: sm ++ l, Outcome.exited 1⟩ call msg err :=
  ⟨rfl, exists_pre_of_drop a sm l _ n h⟩

/-- C10: the calls of `main` follow the source order of its steps (logger,
startMonitoring, manager.New, AddToScheme, NewDispatcher, mgr.Add,
ProvideController, mgr.Start) and the steps visited are an initial segment of
that order, all eight in a run that returns; `mgr.Start` is called only after
the logger, manager, scheme, dispatcher, add and controller steps each returned
no error; a step that returns an error is directly followed by a fatal log of
that error and the process exit, which end the run with status 1; and for every
combination of call results the run is the one the results dictate: the first
step that returns an error is called, logged fatally and ends the run, and when
no step fails the thirteen calls after `startMonitoring` are made in order and
`main` returns. -/
theorem startup_steps_ordered_and_short_circuit {ρ : Type} (w : World ρ) :
    ((main w).trace.filterMap Effect.step).Pairwise (fun a b => a.idx ≤ b.idx) ∧
    ((main w).trace.filterMap Effect.step).dedup <+: stepOrder ∧
    ((main w).outcome = Outcome.returned →
      ((main w).trace.filterMap Effect.step).dedup = stepOrder) ∧
    (∀ mgr r, Effect.mgrStart mgr r ∈ (main w).trace → ∃ lg cfg d,
      Effect.zapNewProduction none ∈ (main w).trace ∧
      Effect.managerNew cfg none ∈ (main w).trace ∧
      Effect.addToScheme mgr none ∈ (main w).trace ∧
      Effect.newDispatcher w.getDefaultNatssURL w.getDefaultClusterID lg none ∈ (main w).trace ∧
      Effect.mgrAdd mgr d none ∈ (main w).trace ∧
      Effect.provideController d mgr lg none ∈ (main w).trace) ∧
    (∀ pre e post err, (main w).trace = pre ++ e :: post → e.stepError = some err →
      isFatalExit err post ∧ (∀ e' ∈ post, e'.step = none) ∧
      (main w).outcome = Outcome.exited 1) ∧
    (∀ err, w.zapNewProduction = .error err →
      main w = ⟨[Effect.zapNewProduction (some err),
        Effect.logFatalf "Unable to create logger: %v" err, Effect.osExit 1], .exited 1⟩) ∧
    (∀ lg, w.zapNewProduction = .ok lg →
      (w.expStopReturns w.expStart = false →
        main w = ⟨Effect.zapNewProduction none :: (startMonitoring w).trace, .panicked⟩) ∧
      (w.expStopReturns w.expStart = true →
        (w.getConfigOrDie = none →
          main w = ⟨Effect.zapNewProduction none :: (startMonitoring w).trace ++
            [Effect.getConfigOrDie none, Effect.osExit 1], .exited 1⟩) ∧
        ∀ cfg, w.getConfigOrDie = some cfg →
          (∀ err, w.managerNew cfg = .error err →
            endsFatally (main w) (Effect.managerNew cfg (some err)) "Error starting up." err) ∧
          ∀ mgr, w.managerNew cfg = .ok mgr →
            (∀ err, w.addToScheme mgr = some err →
              endsFatally (main w) (Effect.addToScheme mgr (some err))
                "Unable to add eventingv1alpha1 scheme" err) ∧
            (w.addToScheme mgr = none →
              (∀ err,
                w.newDispatcher w.getDefaultNatssURL w.getDefaultClusterID lg = .error err →
                endsFatally (main w)
                  (Effect.newDispatcher w.getDefaultNatssURL w.getDefaultClusterID lg (some err))
                  "Unable to create NATSS dispatcher." err) ∧
              ∀ d, w.newDispatcher w.getDefaultNatssURL w.getDefaultClusterID lg = .ok d →
                (∀ err, w.mgrAdd mgr d = some err →
                  endsFatally (main w) (Effect.mgrAdd mgr d (some err))
                    "Unable to add the dispatcher" err) ∧
                (w.mgrAdd mgr d = none →
                  (∀ err, w.provideController d mgr lg = some err →
                    endsFatally (main w) (Effect.provideController d mgr lg (some err))
                      "Unable to create Channel controller" err) ∧
                  (w.provideController d mgr lg = none →
                    (∀ err, w.mgrStart mgr = some err →
                      endsFatally (main w) (Effect.mgrStart mgr (some err))
                        "Manager.Start() returned an error" err) ∧
                    (w.mgrStart mgr = none →
                      main w = ⟨Effect.zapNewProduction none :: (startMonitoring w).trace ++
                        [Effect.getConfigOrDie (some cfg), Effect.managerNew cfg none,
                         Effect.getScheme mgr, Effect.addToScheme mgr none,
                         Effect.loggerInfo "Dispatcher starting...", Effect.getDefaultNatssURL,
                         Effect.getDefaultClusterID,
                         Effect.newDispatcher w.getDefaultNatssURL w.getDefaultClusterID lg none,
                         Effect.mgrAdd mgr d none,
                         Effect.provideController d mgr lg none,
                         Effect.loggerInfo "Dispatcher controller starting...",
                         Effect.setupSignalHandler,
                         Effect.mgrStart mgr none], .returned⟩)))))) := by
  refine ⟨(main_steps_in_source_order w).1, (main_steps_in_source_order w).2,
    (main_start_requires_success w).2, (main_start_requires_success w).1, ?_, ?_, ?_⟩
  · intro pre e post err ht he
    have hfatal := fatalAfterError_cut pre (main w).trace (main_fatalAfterError w) e post err ht he
    refine ⟨hfatal, ?_, ?_⟩
    · obtain ⟨msg, h | h⟩ := hfatal <;> subst h <;> simp [Effect.step]
    · exact main_failed_step_exits w e (by rw [ht]; simp) err he
  · intro err hz
    have hs := main_shape w
    simp only [hz, reduceCtorEq, false_and, exists_false, false_or, or_false,
      Except.ok.injEq, Except.error.injEq, Option.some.injEq, exists_eq_left', true_and, ne_eq,
      not_true_eq_false, not_false_eq_true, and_true] at hs
    exact hs
  · intro lg hz
    have hs := main_shape w
    constructor
    · intro hstop
      have hsm : (startMonitoring w).outcome = Outcome.panicked := by
        rw [startMonitoring_outcome, hstop]; rfl
      simp only [hz, hsm, reduceCtorEq, false_and, exists_false, false_or, or_false,
      Except.ok.injEq, Except.error.injEq, Option.some.injEq, exists_eq_left', true_and, ne_eq,
      not_true_eq_false, not_false_eq_true, and_true] at hs
      exact hs
    intro hstop
    have hsm : (startMonitoring w).outcome = Outcome.returned := by
      rw [startMonitoring_outcome, if_pos hstop]
    constructor
    · intro hc
      simp only [hz, hsm, hc, reduceCtorEq, false_and, exists_false, false_or, or_false,
      Except.ok.injEq, Except.error.injEq, Option.some.injEq, exists_eq_left', true_and, ne_eq,
      not_true_eq_false, not_false_eq_true, and_true] at hs
      exact hs
    intro cfg hc
    constructor
    · intro err hm
      simp only [hz, hsm, hc, hm, reduceCtorEq, false_and, exists_false, false_or, or_false,
      Except.ok.injEq, Except.error.injEq, Option.some.injEq, exists_eq_left', true_and, ne_eq,
      not_true_eq_false, not_false_eq_true, and_true] at hs
      rw [hs]
      exact endsFatally_mk _ _ _ _ _ _ 1 rfl
    intro mgr hm
    constructor
    · intro err hsc
      simp only [hz, hsm, hc, hm, hsc, reduceCtorEq, false_and, exists_false, false_or, or_false,
      Except.ok.injEq, Except.error.injEq, Option.some.injEq, exists_eq_left', true_and, ne_eq,
      not_true_eq_false, not_false_eq_true, and_true] at hs
      rw [hs]
      exact endsFatally_mk _ _ _ _ _ _ 3 rfl
    intro hsc
    constructor
    · intro err hd
      simp only [hz, hsm, hc, hm, hsc, hd, reduceCtorEq, false_and, exists_false, false_or, or_false,
      Except.ok.injEq, Except.error.injEq, Option.some.injEq, exists_eq_left', true_and, ne_eq,
      not_true_eq_false, not_false_eq_true, and_true] at hs
      rw [hs]
      exact endsFatally_mk _ _ _ _ _ _ 7 rfl
    intro d hd
    constructor
    · intro err ha
      simp only [hz, hsm, hc, hm, hsc, hd, ha, reduceCtorEq, false_and, exists_false, false_or, or_false,
      Except.ok.injEq, Except.error.injEq, Option.some.injEq, exists_eq_left', true_and, ne_eq,
      not_true_eq_false, not_false_eq_true, and_true] at hs
      rw [hs]
      exact endsFatally_mk _ _ _ _ _ _ 8 rfl
    intro ha
    constructor
    · intro err hp
      simp only [hz, hsm, hc, hm, hsc, hd, ha, hp, reduceCtorEq, false_and, exists_false, false_or, or_false,
      Except.ok.injEq, Except.error.injEq, Option.some.injEq, exists_eq_left', true_and, ne_eq,
      not_true_eq_false, not_false_eq_true, and_true] at hs
      rw [hs]
      exact endsFatally_mk _ _ _ _ _ _ 9 rfl
    intro hp
    constructor
    · intro err hst
      simp only [hz, hsm, hc, hm, hsc, hd, ha, hp, hst, reduceCtorEq, false_and, exists_false, false_or, or_false,
      Except.ok.injEq, Except.error.injEq, Option.some.injEq, exists_eq_left', true_and, ne_eq,
      not_true_eq_false, not_false_eq_true, and_true] at hs
      rw [hs]
      exact endsFatally_mk _ _ _ _ _ _ 12 rfl
    · intro hst
      simp only [hz, hsm, hc, hm, hsc, hd, ha, hp, hst, reduceCtorEq, false_and, exists_false, false_or, or_false,
      Except.ok.injEq, Except.error.injEq, Option.some.injEq, exists_eq_left', true_and, ne_eq,
      not_true_eq_false, not_false_eq_true, and_true] at hs
      exact hs

/-- Witness for C10 in a world where `mgr.Add` returns an error while every
earlier call succeeds: the run ends with that call, its fatal log and the exit. -/
theorem startup_steps_ordered_and_short_circuit_witness :
    endsFatally (main addFailsWorld) (Effect.mgrAdd ⟨2⟩ ⟨3⟩ (some ⟨"cannot add runnable"⟩))
      "Unable to add the dispatcher" ⟨"cannot add runnable"⟩ :=
  ((((((((startup_steps_ordered_and_short_circuit addFailsWorld).2.2.2.2.2.2 ⟨0⟩ rfl).2
    rfl).2 ⟨1⟩ rfl).2 ⟨2⟩ rfl).2 rfl).2 ⟨3⟩ rfl).1 ⟨"cannot add runnable"⟩ rfl)

/-! ## The dispatcher handed to the manager and the controller -/

/-- A list that holds `mid` behind its first `n` elements still does so behind
a first element and a block of further elements. -/
theorem exists_infix_of_drop {α : Type} (a : α) (sm l mid : List α) (n k : Nat)
    (h : (l.drop n).take k = mid) : ∃ pre post, a :: sm ++ l = pre ++ mid ++ post :=
  ⟨a :: sm ++ l.take n, (l.drop n).drop k, by
    rw [← h, List.append_assoc, List.append_assoc, List.take_append_drop,
      List.take_append_drop]⟩

/-- A monitoring call is not a `NewDispatcher` call. -/
theorem isNewDispatcher_of_isMonitoring {ρ : Type} (e : Effect ρ) (h : e.isMonitoring = true) :
    e.isNewDispatcher = false := by
  cases e <;> first | rfl | exact absurd h (by simp [Effect.isMonitoring])

/-- The calls up to the end of `startMonitoring` hold no `NewDispatcher` call. -/
theorem filter_isNewDispatcher_monitoring_block {ρ : Type} (w : World ρ) :
    (Effect.zapNewProduction none :: (startMonitoring w).trace).filter
      Effect.isNewDispatcher = [] := by
  rw [List.filter_eq_nil_iff]
  intro e he
  rcases List.mem_cons.mp he with h | h
  · subst h
    simp [Effect.isNewDispatcher]
  · rw [isNewDispatcher_of_isMonitoring e (isMonitoring_of_mem_startMonitoring w e h)]
    simp

/-- C6: every `dispatcher.NewDispatcher` call of `main` passes the default NATSS
URL and the default cluster ID, and there is at most one such call; the
dispatcher given to `mgr.Add` and to `channel.ProvideController` is the one that
call returned; a run that reaches the end made all three calls; and whenever
the steps before it succeed, `main` does call `NewDispatcher` once with the
defaults, passes the returned dispatcher to `mgr.Add` right after it and, when
`mgr.Add` succeeds, passes the same dispatcher to `ProvideController` right after
that. -/
theorem dispatcher_built_from_defaults {ρ : Type} (w : World ρ) :
    (∀ url clusterID lg r, Effect.newDispatcher url clusterID lg r ∈ (main w).trace →
      url = w.getDefaultNatssURL ∧ clusterID = w.getDefaultClusterID) ∧
    (∀ mgr d r, Effect.mgrAdd mgr d r ∈ (main w).trace →
      ∃ lg, w.zapNewProduction = .ok lg ∧
        w.newDispatcher w.getDefaultNatssURL w.getDefaultClusterID lg = .ok d) ∧
    (∀ d mgr lg r, Effect.provideController d mgr lg r ∈ (main w).trace →
      w.zapNewProduction = .ok lg ∧
        w.newDispatcher w.getDefaultNatssURL w.getDefaultClusterID lg = .ok d) ∧
    ((main w).outcome = Outcome.returned → ∃ lg d mgr,
      Effect.newDispatcher w.getDefaultNatssURL w.getDefaultClusterID lg none ∈ (main w).trace ∧
      Effect.mgrAdd mgr d none ∈ (main w).trace ∧
      Effect.provideController d mgr lg none ∈ (main w).trace) ∧
    ((main w).trace.filter Effect.isNewDispatcher).length ≤ 1 ∧
    (∀ lg cfg mgr, w.zapNewProduction = .ok lg → w.expStopReturns w.expStart = true →
      w.getConfigOrDie = some cfg → w.managerNew cfg = .ok mgr → w.addToScheme mgr = none →
      (∀ err, w.newDispatcher w.getDefaultNatssURL w.getDefaultClusterID lg = .error err →
        (main w).trace.filter Effect.isNewDispatcher =
          [Effect.newDispatcher w.getDefaultNatssURL w.getDefaultClusterID lg (some err)]) ∧
      (∀ d, w.newDispatcher w.getDefaultNatssURL w.getDefaultClusterID lg = .ok d →
        (main w).trace.filter Effect.isNewDispatcher =
          [Effect.newDispatcher w.getDefaultNatssURL w.getDefaultClusterID lg none] ∧
        (∃ pre post, (main w).trace = pre ++
          [Effect.newDispatcher w.getDefaultNatssURL w.getDefaultClusterID lg none,
           Effect.mgrAdd mgr d (w.mgrAdd mgr d)] ++ post) ∧
        (w.mgrAdd mgr d = none → ∃ pre post, (main w).trace = pre ++
          [Effect.newDispatcher w.getDefaultNatssURL w.getDefaultClusterID lg none,
           Effect.mgrAdd mgr d none,
           Effect.provideController d mgr lg (w.provideController d mgr lg)] ++ post))) := by
  have hblock := filter_isNewDispatcher_monitoring_block w
  refine ⟨?_, ?_, ?_, ?_, ?_, ?_⟩
  · intro url clusterID lg0 r h
    obtain ⟨e, hz, hm⟩ | ⟨lg, hz, ⟨hsm, hm⟩ | ⟨hsm, ⟨_, hm⟩ | ⟨cfg, _, ⟨e, _, hm⟩ | ⟨mgr, _,
    ⟨e, _, hm⟩ | ⟨_, ⟨e, hd, hm⟩ | ⟨d, hd, ⟨e, _, hm⟩ | ⟨_, ⟨e, _, hm⟩ | ⟨_, ⟨e, _, hm⟩ |
    ⟨_, hm⟩⟩⟩⟩⟩⟩⟩⟩⟩ := main_shape w
    all_goals rw [hm] at h
    all_goals simp [not_mem_startMonitoring, Effect.isMonitoring] at h
    all_goals exact ⟨h.1, h.2.1⟩
  · intro mgr0 d0 r h
    obtain ⟨e, hz, hm⟩ | ⟨lg, hz, ⟨hsm, hm⟩ | ⟨hsm, ⟨_, hm⟩ | ⟨cfg, _, ⟨e, _, hm⟩ | ⟨mgr, _,
    ⟨e, _, hm⟩ | ⟨_, ⟨e, hd, hm⟩ | ⟨d, hd, ⟨e, _, hm⟩ | ⟨_, ⟨e, _, hm⟩ | ⟨_, ⟨e, _, hm⟩ |
    ⟨_, hm⟩⟩⟩⟩⟩⟩⟩⟩⟩ := main_shape w
    all_goals rw [hm] at h
    all_goals simp [not_mem_startMonitoring, Effect.isMonitoring] at h
    all_goals obtain ⟨_, rfl, _⟩ := h
    all_goals exact ⟨lg, hz, hd⟩
  · intro d0 mgr0 lg0 r h
    obtain ⟨e, hz, hm⟩ | ⟨lg, hz, ⟨hsm, hm⟩ | ⟨hsm, ⟨_, hm⟩ | ⟨cfg, _, ⟨e, _, hm⟩ | ⟨mgr, _,
    ⟨e, _, hm⟩ | ⟨_, ⟨e, hd, hm⟩ | ⟨d, hd, ⟨e, _, hm⟩ | ⟨_, ⟨e, _, hm⟩ | ⟨_, ⟨e, _, hm⟩ |
    ⟨_, hm⟩⟩⟩⟩⟩⟩⟩⟩⟩ := main_shape w
    all_goals rw [hm] at h
    all_goals simp [not_mem_startMonitoring, Effect.isMonitoring] at h
    all_goals obtain ⟨rfl, _, rfl, _⟩ := h
    all_goals exact ⟨hz, hd⟩
  · intro hout
    obtain ⟨e, hz, hm⟩ | ⟨lg, hz, ⟨hsm, hm⟩ | ⟨hsm, ⟨_, hm⟩ | ⟨cfg, _, ⟨e, _, hm⟩ | ⟨mgr, _,
    ⟨e, _, hm⟩ | ⟨_, ⟨e, hd, hm⟩ | ⟨d, hd, ⟨e, _, hm⟩ | ⟨_, ⟨e, _, hm⟩ | ⟨_, ⟨e, _, hm⟩ |
    ⟨_, hm⟩⟩⟩⟩⟩⟩⟩⟩⟩ := main_shape w
    all_goals rw [hm] at hout ⊢
    all_goals first
      | (simp at hout; done)
      | exact absurd hout hsm
      | exact ⟨lg, d, mgr, by simp, by simp, by simp⟩
  · obtain ⟨e, hz, hm⟩ | ⟨lg, hz, ⟨hsm, hm⟩ | ⟨hsm, ⟨_, hm⟩ | ⟨cfg, _, ⟨e, _, hm⟩ | ⟨mgr, _,
    ⟨e, _, hm⟩ | ⟨_, ⟨e, hd, hm⟩ | ⟨d, hd, ⟨e, _, hm⟩ | ⟨_, ⟨e, _, hm⟩ | ⟨_, ⟨e, _, hm⟩ |
    ⟨_, hm⟩⟩⟩⟩⟩⟩⟩⟩⟩ := main_shape w
    all_goals rw [hm]
    · simp [Effect.isNewDispatcher]
    · rw [hblock]; simp
    all_goals rw [List.filter_append, hblock]
    all_goals simp [List.filter_cons, Effect.isNewDispatcher]
  · intro lg cfg mgr hz hstop hc hmg hsc
    have hsm : (startMonitoring w).outcome = Outcome.returned := by
      rw [startMonitoring_outcome, if_pos hstop]
    have hs := main_shape w
    constructor
    · intro err hd
      simp only [hz, hsm, hc, hmg, hsc, hd, reduceCtorEq, false_and, exists_false, false_or, or_false,
      Except.ok.injEq, Except.error.injEq, Option.some.injEq, exists_eq_left', true_and, ne_eq,
      not_true_eq_false, not_false_eq_true, and_true] at hs
      rw [hs]
      simp only [List.filter_append, hblock]
      simp [List.filter_cons, Effect.isNewDispatcher]
    · intro d hd
      cases ha : w.mgrAdd mgr d with
      | some ea =>
        simp only [hz, hsm, hc, hmg, hsc, hd, ha, reduceCtorEq, false_and, exists_false, false_or, or_false,
      Except.ok.injEq, Except.error.injEq, Option.some.injEq, exists_eq_left', true_and, ne_eq,
      not_true_eq_false, not_false_eq_true, and_true] at hs
        rw [hs]
        refine ⟨?_, exists_infix_of_drop _ _ _ _ 7 2 rfl, fun h => absurd h (by simp)⟩
        simp only [List.filter_append, hblock]
        simp [List.filter_cons, Effect.isNewDispatcher]
      | none =>
        cases hp : w.provideController d mgr lg with
        | some ep =>
          simp only [hz, hsm, hc, hmg, hsc, hd, ha, hp, reduceCtorEq, false_and, exists_false, false_or, or_false,
      Except.ok.injEq, Except.error.injEq, Option.some.injEq, exists_eq_left', true_and, ne_eq,
      not_true_eq_false, not_false_eq_true, and_true] at hs
          rw [hs]
          refine ⟨?_, exists_infix_of_drop _ _ _ _ 7 2 rfl,
            fun _ => exists_infix_of_drop _ _ _ _ 7 3 rfl⟩
          simp only [List.filter_append, hblock]
          simp [List.filter_cons, Effect.isNewDispatcher]
        | none =>
          cases hst : w.mgrStart mgr with
          | some es =>
            simp only [hz, hsm, hc, hmg, hsc, hd, ha, hp, hst, reduceCtorEq, false_and, exists_false, false_or, or_false,
      Except.ok.injEq, Except.error.injEq, Option.some.injEq, exists_eq_left', true_and, ne_eq,
      not_true_eq_false, not_false_eq_true, and_true] at hs
            rw [hs]
            refine ⟨?_, exists_infix_of_drop _ _ _ _ 7 2 rfl,
              fun _ => exists_infix_of_drop _ _ _ _ 7 3 rfl⟩
            simp only [List.filter_append, hblock]
            simp [List.filter_cons, Effect.isNewDispatcher]
          | none =>
            simp only [hz, hsm, hc, hmg, hsc, hd, ha, hp, hst, reduceCtorEq, false_and, exists_false, false_or, or_false,
      Except.ok.injEq, Except.error.injEq, Option.some.injEq, exists_eq_left', true_and, ne_eq,
      not_true_eq_false, not_false_eq_true, and_true] at hs
            rw [hs]
            refine ⟨?_, exists_infix_of_drop _ _ _ _ 7 2 rfl,
              fun _ => exists_infix_of_drop _ _ _ _ 7 3 rfl⟩
            simp only [List.filter_append, hblock]
            simp [List.filter_cons, Effect.isNewDispatcher]

/-- Witness for C6 in the world where every call succeeds: `NewDispatcher` is
called with the defaults, and the dispatcher it returns goes to `mgr.Add` and
then to `ProvideController`. -/
theorem dispatcher_built_from_defaults_witness :
    ∃ pre post, (main okWorld).trace = pre ++
      [Effect.newDispatcher "nats://nats-streaming.natss.svc:4222" "knative-nats-streaming"
         ⟨0⟩ none,
       Effect.mgrAdd ⟨2⟩ ⟨3⟩ none,
       Effect.provideController ⟨3⟩ ⟨2⟩ ⟨0⟩ none] ++ post :=
  (((dispatcher_built_from_defaults okWorld).2.2.2.2.2 ⟨0⟩ ⟨1⟩ ⟨2⟩ rfl rfl rfl rfl rfl).2
    ⟨3⟩ rfl).2.2 rfl

/-! ## The exporter error -/

/-- Two worlds that differ at most in what the exporter calls do, and in both
of which `startMonitoring` returns, have the same calls after `startMonitoring`
and the same outcome. -/
theorem main_continuation {ρ : Type} (w0 w1 : World ρ) (lg : Logger)
    (hz0 : w0.zapNewProduction = .ok lg) (hz1 : w1.zapNewProduction = .ok lg)
    (hs0 : (startMonitoring w0).outcome = Outcome.returned)
    (hs1 : (startMonitoring w1).outcome = Outcome.returned)
    (e1 : w1.getConfigOrDie = w0.getConfigOrDie) (e2 : w1.managerNew = w0.managerNew)
    (e3 : w1.addToScheme = w0.addToScheme) (e4 : w1.getDefaultNatssURL = w0.getDefaultNatssURL)
    (e5 : w1.getDefaultClusterID = w0.getDefaultClusterID)
    (e6 : w1.newDispatcher = w0.newDispatcher) (e7 : w1.mgrAdd = w0.mgrAdd)
    (e8 : w1.provideController = w0.provideController) (e9 : w1.mgrStart = w0.mgrStart) :
    ∃ rest out,
      main w0 = ⟨Effect.zapNewProduction none :: (startMonitoring w0).trace ++ rest, out⟩ ∧
      main w1 = ⟨Effect.zapNewProduction none :: (startMonitoring w1).trace ++ rest, out⟩ ∧
      rest.head? = some (Effect.getConfigOrDie w0.getConfigOrDie) ∧
      (∀ cfg mgr d, w0.getConfigOrDie = some cfg → w0.managerNew cfg = .ok mgr →
        w0.addToScheme mgr = none →
        w0.newDispatcher w0.getDefaultNatssURL w0.getDefaultClusterID lg = .ok d →
        w0.mgrAdd mgr d = none → w0.provideController d mgr lg = none →
        rest.take 13 =
          [Effect.getConfigOrDie (some cfg), Effect.managerNew cfg none,
           Effect.getScheme mgr, Effect.addToScheme mgr none,
           Effect.loggerInfo "Dispatcher starting...", Effect.getDefaultNatssURL,
           Effect.getDefaultClusterID,
           Effect.newDispatcher w0.getDefaultNatssURL w0.getDefaultClusterID lg none,
           Effect.mgrAdd mgr d none,
           Effect.provideController d mgr lg none,
           Effect.loggerInfo "Dispatcher controller starting...",
           Effect.setupSignalHandler,
           Effect.mgrStart mgr (w0.mgrStart mgr)]) := by
  have h1 := main_shape w1
  rw [e1, e2, e3, e4, e5, e6, e7, e8, e9] at h1
  obtain ⟨e, hz, hm⟩ | ⟨lg0, hz, ⟨hsm, hm⟩ | ⟨hsm, ⟨hc, hm⟩ | ⟨cfg, hc, ⟨e, hmg, hm⟩ | ⟨mgr, hmg,
    ⟨e, hsc, hm⟩ | ⟨hsc, ⟨e, hd, hm⟩ | ⟨d, hd, ⟨e, ha, hm⟩ | ⟨ha, ⟨e, hp, hm⟩ | ⟨hp, ⟨e, hst, hm⟩ |
    ⟨hst, hm⟩⟩⟩⟩⟩⟩⟩⟩⟩ := main_shape w0
  · rw [hz0] at hz
    exact absurd hz (by simp)
  · exact absurd hs0 hsm
  all_goals rw [hz0] at hz
  all_goals injection hz with hz
  all_goals subst hz
  · simp only [hz1, hs1, hc, reduceCtorEq, false_and, exists_false, false_or, or_false,
      Except.ok.injEq, Except.error.injEq, Option.some.injEq, exists_eq_left', true_and, ne_eq,
      not_true_eq_false, not_false_eq_true, and_true] at h1
    exact ⟨_, _, hm, h1, by simp [hc], by intro cfg mgr d h; simp [hc] at h⟩
  · simp only [hz1, hs1, hc, hmg, reduceCtorEq, false_and, exists_false, false_or, or_false,
      Except.ok.injEq, Except.error.injEq, Option.some.injEq, exists_eq_left', true_and, ne_eq,
      not_true_eq_false, not_false_eq_true, and_true] at h1
    exact ⟨_, _, hm, h1, by simp [hc],
      by intro cfg0 mgr d h h2; simp [hc] at h; subst h; simp [hmg] at h2⟩
  · simp only [hz1, hs1, hc, hmg, hsc, reduceCtorEq, false_and, exists_false, false_or, or_false,
      Except.ok.injEq, Except.error.injEq, Option.some.injEq, exists_eq_left', true_and, ne_eq,
      not_true_eq_false, not_false_eq_true, and_true] at h1
    exact ⟨_, _, hm, h1, by simp [hc],
      by intro cfg0 mgr0 d h h2 h3; simp [hc] at h; subst h; simp [hmg] at h2; subst h2
         simp [hsc] at h3⟩
  · simp only [hz1, hs1, hc, hmg, hsc, hd, reduceCtorEq, false_and, exists_false, false_or, or_false,
      Except.ok.injEq, Except.error.injEq, Option.some.injEq, exists_eq_left', true_and, ne_eq,
      not_true_eq_false, not_false_eq_true, and_true] at h1
    exact ⟨_, _, hm, h1, by simp [hc],
      by intro cfg0 mgr0 d h h2 h3 h4; simp [hc] at h; subst h; simp [hmg] at h2; subst h2
         simp [hd] at h4⟩
  · simp only [hz1, hs1, hc, hmg, hsc, hd, ha, reduceCtorEq, false_and, exists_false, false_or, or_false,
      Except.ok.injEq, Except.error.injEq, Option.some.injEq, exists_eq_left', true_and, ne_eq,
      not_true_eq_false, not_false_eq_true, and_true] at h1
    exact ⟨_, _, hm, h1, by simp [hc],
      by intro cfg0 mgr0 d0 h h2 h3 h4 h5; simp [hc] at h; subst h; simp [hmg] at h2; subst h2
         simp [hd] at h4; subst h4; simp [ha] at h5⟩
  · simp only [hz1, hs1, hc, hmg, hsc, hd, ha, hp, reduceCtorEq, false_and, exists_false, false_or, or_false,
      Except.ok.injEq, Except.error.injEq, Option.some.injEq, exists_eq_left', true_and, ne_eq,
      not_true_eq_false, not_false_eq_true, and_true] at h1
    exact ⟨_, _, hm, h1, by simp [hc],
      by intro cfg0 mgr0 d0 h h2 h3 h4 h5 h6; simp [hc] at h; subst h; simp [hmg] at h2
         subst h2; simp [hd] at h4; subst h4; simp [hp] at h6⟩
  · simp only [hz1, hs1, hc, hmg, hsc, hd, ha, hp, hst, reduceCtorEq, false_and, exists_false, false_or, or_false,
      Except.ok.injEq, Except.error.injEq, Option.some.injEq, exists_eq_left', true_and, ne_eq,
      not_true_eq_false, not_false_eq_true, and_true] at h1
    exact ⟨_, _, hm, h1, by simp [hc],
      by intro cfg0 mgr0 d0 h h2 h3 h4 h5 h6; simp [hc] at h; subst h; simp [hmg] at h2
         subst h2; simp [hd] at h4; subst h4; simp [hst]⟩
  · simp only [hz1, hs1, hc, hmg, hsc, hd, ha, hp, hst, reduceCtorEq, false_and, exists_false, false_or, or_false,
      Except.ok.injEq, Except.error.injEq, Option.some.injEq, exists_eq_left', true_and, ne_eq,
      not_true_eq_false, not_false_eq_true, and_true] at h1
    exact ⟨_, _, hm, h1, by simp [hc],
      by intro cfg0 mgr0 d0 h h2 h3 h4 h5 h6; simp [hc] at h; subst h; simp [hmg] at h2
         subst h2; simp [hd] at h4; subst h4; simp [hst]⟩

/-- C5 as stated fails: in a world where `exp.Start` returns an error and the
`exp.Stop` call that follows panics on the exporter that never started, `main`
ends in that panic right after logging the error and makes none of the later
calls, while the same world with a successful `exp.Start` runs through to
`mgr.Start` and returns. -/
theorem exporter_failure_can_end_startup :
    (main stopPanicsWorld).outcome = Outcome.panicked ∧
    (main stopPanicsWorld).trace =
      [Effect.zapNewProduction none, Effect.getDefaultExporterOptions,
       Effect.newExporter
         { GetVarz := true, GetSubz := true, GetConnz := true, GetRoutez := true,
           ListenPort := 9090, ListenAddress := "localhost",
           NATSServerURL := "http://nats-streaming.natss.svc.cluster.local:8222",
           rest := () },
       Effect.expStart (some ⟨"error serving http"⟩),
       Effect.logPrintln "cannot start nats prometheus exporter." ⟨"error serving http"⟩,
       Effect.expStop] ∧
    (main { stopPanicsWorld with expStart := none }).outcome = Outcome.returned ∧
    Effect.mgrStart ⟨2⟩ none ∈ (main { stopPanicsWorld with expStart := none }).trace ∧
    (main stopPanicsWorld).outcome ≠ (main { stopPanicsWorld with expStart := none }).outcome := by
  refine ⟨by decide, by decide, by decide, by decide, by decide⟩

/-- C5 (amended): when the `exp.Stop` call returns, an `exp.Start` that returns
`err` is only logged: `startMonitoring` makes the same calls as after a
successful `exp.Start` plus the `log.Println` of the error, and `main` goes on
with the same calls after it, starting with `config.GetConfigOrDie`, and ends
the same way; when the later steps succeed these calls are manager creation,
scheme registration, `NewDispatcher` with the default URL and cluster ID,
`mgr.Add`, `ProvideController` and `mgr.Start`, in that order. -/
theorem exporter_failure_only_logged {ρ : Type} (w : World ρ) (err : GoError) (lg : Logger)
    (hz : w.zapNewProduction = .ok lg)
    (hstopOk : w.expStopReturns none = true)
    (hstopErr : w.expStopReturns (some err) = true) :
    ∃ opts rest,
      (main { w with expStart := none }).trace =
        [Effect.zapNewProduction none, Effect.getDefaultExporterOptions,
         Effect.newExporter opts, Effect.expStart none, Effect.expStop,
         Effect.expWaitUntilDone] ++ rest ∧
      (main { w with expStart := some err }).trace =
        [Effect.zapNewProduction none, Effect.getDefaultExporterOptions,
         Effect.newExporter opts, Effect.expStart (some err),
         Effect.logPrintln "cannot start nats prometheus exporter." err, Effect.expStop,
         Effect.expWaitUntilDone] ++ rest ∧
      (main { w with expStart := some err }).outcome =
        (main { w with expStart := none }).outcome ∧
      rest.head? = some (Effect.getConfigOrDie w.getConfigOrDie) ∧
      (∀ cfg mgr d, w.getConfigOrDie = some cfg → w.managerNew cfg = .ok mgr →
        w.addToScheme mgr = none →
        w.newDispatcher w.getDefaultNatssURL w.getDefaultClusterID lg = .ok d →
        w.mgrAdd mgr d = none → w.provideController d mgr lg = none →
        rest.take 13 =
          [Effect.getConfigOrDie (some cfg), Effect.managerNew cfg none,
           Effect.getScheme mgr, Effect.addToScheme mgr none,
           Effect.loggerInfo "Dispatcher starting...", Effect.getDefaultNatssURL,
           Effect.getDefaultClusterID,
           Effect.newDispatcher w.getDefaultNatssURL w.getDefaultClusterID lg none,
           Effect.mgrAdd mgr d none,
           Effect.provideController d mgr lg none,
           Effect.loggerInfo "Dispatcher controller starting...",
           Effect.setupSignalHandler,
           Effect.mgrStart mgr (w.mgrStart mgr)]) := by
  have hsm0 : (startMonitoring { w with expStart := none }).outcome = Outcome.returned := by
    rw [startMonitoring_outcome]
    simp [hstopOk]
  have hsm1 : (startMonitoring { w with expStart := some err }).outcome = Outcome.returned := by
    rw [startMonitoring_outcome]
    simp [hstopErr]
  have ht0 := startMonitoring_trace { w with expStart := none }
  have ht1 := startMonitoring_trace { w with expStart := some err }
  simp only [hstopOk, hstopErr, if_true, List.append_nil, List.cons_append, List.nil_append]
    at ht0 ht1
  obtain ⟨rest, out, h0, h1, hhead, hchain⟩ :=
    main_continuation { w with expStart := none } { w with expStart := some err } lg hz hz
      hsm0 hsm1 rfl rfl rfl rfl rfl rfl rfl rfl rfl
  rw [ht0] at h0
  rw [ht1] at h1
  refine ⟨{ GetVarz := true, GetSubz := true, GetConnz := true, GetRoutez := true,
            ListenPort := 9090, ListenAddress := "localhost",
            NATSServerURL := "http://nats-streaming.natss.svc.cluster.local:8222",
            rest := w.getDefaultExporterOptions.rest }, rest, ?_, ?_, ?_, hhead, hchain⟩
  · rw [h0]
  · rw [h1]
  · rw [h0, h1]

/-- Witness for the amended C5 in the world where the exporter fails to start,
`exp.Stop` returns and every other call succeeds: the run still returns. -/
theorem exporter_failure_only_logged_witness :
    exporterFailsWorld.zapNewProduction = .ok ⟨0⟩ ∧
    exporterFailsWorld.expStopReturns none = true ∧
    exporterFailsWorld.expStopReturns (some ⟨"error serving http"⟩) = true ∧
    ∃ opts rest,
      (main { exporterFailsWorld with expStart := some ⟨"error serving http"⟩ }).trace =
        [Effect.zapNewProduction none, Effect.getDefaultExporterOptions,
         Effect.newExporter opts, Effect.expStart (some ⟨"error serving http"⟩),
         Effect.logPrintln "cannot start nats prometheus exporter." ⟨"error serving http"⟩,
         Effect.expStop, Effect.expWaitUntilDone] ++ rest ∧
      rest.head? = some (Effect.getConfigOrDie (some ⟨1⟩)) :=
  ⟨rfl, rfl, rfl,
    (exporter_failure_only_logged exporterFailsWorld ⟨"error serving http"⟩ ⟨0⟩ rfl rfl rfl).elim
      fun opts h => h.elim fun rest hr => ⟨opts, rest, hr.2.1, hr.2.2.2.1⟩⟩

end Dispatcher

namespace Reconciler

/-! ## Registry lemmas -/

/-- Dropping the ChannelStates of channel `c` empties `c` and leaves the live
records of every other channel. -/
theorem live_filter_ne (r : Registry) (c c' : ChannelID) :
    Registry.live (r.filter (fun cs => !decide (cs.id = c))) c' =
      if c' = c then [] else Registry.live r c' := by
  induction r with
  | nil => simp [Registry.live]
  | cons cs r ih =>
    by_cases h : cs.id = c
    · subst h
      by_cases h' : c' = cs.id
      · subst h'
        simpa [List.filter_cons] using ih
      · have h2 : ¬ cs.id = c' := fun e => h' e.symm
        simp [List.filter_cons, Registry.live, h2, ih, h']
    · by_cases h' : c' = c
      · subst h'
        simpa [List.filter_cons, h, Registry.live] using ih
      · simp [List.filter_cons, h, ih, h', Registry.live]

/-- Dropping the ChannelStates of channel `c` removes `c` and keeps the
presence of every other channel. -/
theorem has_filter_ne (r : Registry) (c c' : ChannelID) :
    Registry.has (r.filter (fun cs => !decide (cs.id = c))) c' =
      if c' = c then false else Registry.has r c' := by
  induction r with
  | nil => simp [Registry.has]
  | cons cs r ih =>
    simp only [Registry.has] at ih ⊢
    by_cases h : cs.id = c
    · subst h
      by_cases h' : c' = cs.id
      · subst h'
        simp [List.filter_cons]
      · have h2 : ¬ cs.id = c' := fun e => h' e.symm
        simp only [List.filter_cons, decide_True, Bool.not_true, Bool.false_eq_true, if_false,
          List.any_cons, h2, decide_False, Bool.false_or]
        exact ih
    · by_cases h' : c' = c
      · subst h'
        simp [List.filter_cons, h]
      · simp only [List.filter_cons, h, decide_False, Bool.not_false, if_true, List.any_cons, ih,
          h', if_false]

/-- After `put c v` channel `c` holds `v` and every other channel holds what
it held. -/
theorem live_put (r : Registry) (c : ChannelID) (v : List LiveSubscription) (c' : ChannelID) :
    Registry.live (r.put c v) c' = if c' = c then v else Registry.live r c' := by
  by_cases h : c' = c
  · subst h
    simp [Registry.put, Registry.live, live_filter_ne]
  · have : ¬ c = c' := fun e => h e.symm
    simp [Registry.put, Registry.live, live_filter_ne, h, this]

/-- After `put c v` channel `c` is present and the presence of every other
channel is unchanged. -/
theorem has_put (r : Registry) (c : ChannelID) (v : List LiveSubscription) (c' : ChannelID) :
    Registry.has (r.put c v) c' = if c' = c then true else Registry.has r c' := by
  have hf := has_filter_ne r c c'
  simp only [Registry.has] at hf
  by_cases h : c' = c
  · subst h
    simp [Registry.put, Registry.has]
  · have : ¬ c = c' := fun e => h e.symm
    simp [Registry.put, Registry.has, hf, h, this]

/-- Pruning never changes the live records of any channel. -/
theorem live_prune (r : Registry) (c c' : ChannelID) :
    Registry.live (r.prune c) c' = Registry.live r c' := by
  unfold Registry.prune
  split
  · rename_i h
    rw [live_filter_ne]
    split
    · rename_i h'
      rw [h', h]
    · rfl
  · rfl

/-- Pruning channel `c` removes it exactly when it holds no live record. -/
theorem has_prune (r : Registry) (c c' : ChannelID) :
    Registry.has (r.prune c) c' =
      if c' = c ∧ Registry.live r c = [] then false else Registry.has r c' := by
  unfold Registry.prune
  by_cases h : Registry.live r c = []
  · by_cases h' : c' = c <;> simp [h, h', has_filter_ne]
  · simp [h]

/-- A channel that is not in the registry holds no live record. -/
theorem live_of_not_mem_channels (r : Registry) (c : ChannelID) (h : c ∉ r.channels) :
    Registry.live r c = [] := by
  induction r with
  | nil => rfl
  | cons cs r ih =>
    simp only [Registry.channels, List.map_cons, List.mem_cons, not_or] at h
    have h1 : ¬ cs.id = c := fun e => h.1 e.symm
    simp only [Registry.live, h1, if_false]
    exact ih h.2

/-- The presence test agrees with membership in the channel list. -/
theorem has_eq_false_iff (r : Registry) (c : ChannelID) :
    Registry.has r c = false ↔ c ∉ r.channels := by
  simp only [Registry.has, Registry.channels, List.any_eq_false, List.mem_map,
    decide_eq_true_eq, not_exists, not_and]

/-- Dropping an absent channel leaves the registry as it is. -/
theorem filter_ne_of_has_false (r : Registry) (c : ChannelID) (h : Registry.has r c = false) :
    r.filter (fun cs => !decide (cs.id = c)) = r := by
  rw [List.filter_eq_self]
  intro cs hcs
  simp only [Registry.has, List.any_eq_false, decide_eq_true_eq] at h
  simpa using h cs hcs

/-- A channel absent from the snapshot is assigned the empty set. -/
theorem subs_of_not_mem_keys (d : DesiredState) (c : ChannelID) (h : c ∉ d.map Prod.fst) :
    d.subs c = [] := by
  unfold DesiredState.subs
  have : d.find? (fun p => decide (p.1 = c)) = none := by
    rw [List.find?_eq_none]
    intro p hp hpc
    exact h (List.mem_map.mpr ⟨p, hp, by simpa using hpc⟩)
  rw [this]

/-! ## One removal, one addition -/

/-- A removal that reports no error deletes the records of spec `s` from
channel `c` and touches no other channel. -/
theorem removeOne_spec (bus : Bus) (c : ChannelID) (st : State) (s : SubscriptionSpec)
    (h : (removeOne bus c st s).errors = []) :
    st.errors = [] ∧
    (∀ c', c' ≠ c →
      (removeOne bus c st s).registry.live c' = st.registry.live c' ∧
      (removeOne bus c st s).registry.has c' = st.registry.has c') ∧
    (∀ x, x ∈ (removeOne bus c st s).registry.live c ↔ x ∈ st.registry.live c ∧ x.spec ≠ s) := by
  unfold removeOne at h ⊢
  cases hl : st.registry.lookup c s with
  | none =>
    simp only [hl] at h ⊢
    refine ⟨h, by simp, fun x => ⟨fun hx => ⟨hx, ?_⟩, fun hx => hx.1⟩⟩
    unfold Registry.lookup at hl
    rw [List.find?_eq_none] at hl
    simpa using hl x hx
  | some l =>
    simp only [hl] at h ⊢
    by_cases hok : bus.unsubscribeOk st.log.length l.handle = true
    · simp only [hok, if_true] at h ⊢
      have hr : (st.registry.remove c s).1 =
          st.registry.put c ((st.registry.live c).filter (fun x => !decide (x.spec = s))) := by
        simp [Registry.remove, hl]
      simp only [hr]
      refine ⟨h, fun c' hc' => by simp [live_put, has_put, hc'], fun x => ?_⟩
      simp [live_put, List.mem_filter]
    · simp [hok] at h

/-- An addition that reports no error puts spec `s` into channel `c` and
touches no other channel. -/
theorem addOne_spec (bus : Bus) (c : ChannelID) (st : State) (s : SubscriptionSpec)
    (h : (addOne bus c st s).errors = []) :
    st.errors = [] ∧
    (∀ c', c' ≠ c →
      (addOne bus c st s).registry.live c' = st.registry.live c' ∧
      (addOne bus c st s).registry.has c' = st.registry.has c') ∧
    (∀ s', s' ∈ (addOne bus c st s).registry.list c ↔ s' = s ∨ s' ∈ st.registry.list c) := by
  unfold addOne at h ⊢
  by_cases hok : bus.subscribeOk st.log.length c s = true
  · simp only [hok, if_true] at h ⊢
    refine ⟨h, fun c' hc' => by simp [Registry.add, live_put, has_put, hc'], fun s' => ?_⟩
    simp only [Registry.list, Registry.add, live_put, if_true, List.map_cons, List.mem_cons,
      List.mem_map, List.mem_filter]
    constructor
    · rintro (h1 | ⟨x, ⟨hx, _⟩, rfl⟩)
      · exact Or.inl h1
      · exact Or.inr ⟨x, hx, rfl⟩
    · rintro (h1 | ⟨x, hx, rfl⟩)
      · exact Or.inl h1
      · by_cases hxs : x.spec = s
        · exact Or.inl hxs
        · exact Or.inr ⟨x, ⟨hx, by simpa using hxs⟩, rfl⟩
  · simp [hok] at h

/-- A run of removals that reports no error deletes exactly the listed specs
from channel `c`. -/
theorem foldl_removeOne_spec (bus : Bus) (c : ChannelID) (l : List SubscriptionSpec) :
    ∀ (st : State), (l.foldl (removeOne bus c) st).errors = [] →
      st.errors = [] ∧
      (∀ c', c' ≠ c →
        (l.foldl (removeOne bus c) st).registry.live c' = st.registry.live c' ∧
        (l.foldl (removeOne bus c) st).registry.has c' = st.registry.has c') ∧
      (∀ x, x ∈ (l.foldl (removeOne bus c) st).registry.live c ↔
        x ∈ st.registry.live c ∧ x.spec ∉ l) := by
  induction l with
  | nil => intro st h; exact ⟨h, fun _ _ => ⟨rfl, rfl⟩, fun x => by simp⟩
  | cons s l ih =>
    intro st h
    simp only [List.foldl_cons] at h ⊢
    obtain ⟨h1, h2, h3⟩ := ih _ h
    obtain ⟨g1, g2, g3⟩ := removeOne_spec bus c st s h1
    refine ⟨g1, fun c' hc' => ?_, fun x => ?_⟩
    · exact ⟨(h2 c' hc').1.trans (g2 c' hc').1, (h2 c' hc').2.trans (g2 c' hc').2⟩
    · rw [h3, g3]
      simp only [List.mem_cons, not_or]
      tauto

/-- A run of additions that reports no error adds exactly the listed specs to
channel `c`. -/
theorem foldl_addOne_spec (bus : Bus) (c : ChannelID) (l : List SubscriptionSpec) :
    ∀ (st : State), (l.foldl (addOne bus c) st).errors = [] →
      st.errors = [] ∧
      (∀ c', c' ≠ c →
        (l.foldl (addOne bus c) st).registry.live c' = st.registry.live c' ∧
        (l.foldl (addOne bus c) st).registry.has c' = st.registry.has c') ∧
      (∀ s', s' ∈ (l.foldl (addOne bus c) st).registry.list c ↔
        s' ∈ l ∨ s' ∈ st.registry.list c) := by
  induction l with
  | nil => intro st h; exact ⟨h, fun _ _ => ⟨rfl, rfl⟩, fun x => by simp⟩
  | cons s l ih =>
    intro st h
    simp only [List.foldl_cons] at h ⊢
    obtain ⟨h1, h2, h3⟩ := ih _ h
    obtain ⟨g1, g2, g3⟩ := addOne_spec bus c st s h1
    refine ⟨g1, fun c' hc' => ?_, fun x => ?_⟩
    · exact ⟨(h2 c' hc').1.trans (g2 c' hc').1, (h2 c' hc').2.trans (g2 c' hc').2⟩
    · rw [h3, g3]
      simp only [List.mem_cons]
      tauto

/-! ## One channel, all channels -/

/-- Membership in `toAdd`: desired and not live. -/
theorem mem_toAdd (d : DesiredState) (r : Registry) (c : ChannelID) (s : SubscriptionSpec) :
    s ∈ toAdd d r c ↔ s ∈ d.subs c ∧ s ∉ r.list c := by
  simp [toAdd, List.mem_dedup, List.mem_filter]

/-- Membership in `toRemove`: live and not desired. -/
theorem mem_toRemove (d : DesiredState) (r : Registry) (c : ChannelID) (s : SubscriptionSpec) :
    s ∈ toRemove d r c ↔ s ∈ r.list c ∧ s ∉ d.subs c := by
  simp [toRemove, List.mem_dedup, List.mem_filter]

/-- Reconciling channel `c` without error makes `c` converged and touches no
other channel. -/
theorem applyChannel_spec (bus : Bus) (d : DesiredState) (st : State) (c : ChannelID)
    (h : (applyChannel bus d st c).errors = []) :
    st.errors = [] ∧
    (∀ c', c' ≠ c →
      (applyChannel bus d st c).registry.live c' = st.registry.live c' ∧
      (applyChannel bus d st c).registry.has c' = st.registry.has c') ∧
    Converged d (applyChannel bus d st c).registry c := by
  unfold applyChannel at h ⊢
  simp only at h ⊢
  obtain ⟨a1, a2, a3⟩ := foldl_addOne_spec bus c _ _ h
  obtain ⟨r1, r2, r3⟩ := foldl_removeOne_spec bus c _ _ a1
  refine ⟨r1, fun c' hc' => ?_, ?_, ?_⟩
  · rw [live_prune, has_prune]
    simp only [hc', false_and, if_false]
    exact ⟨(a2 c' hc').1.trans (r2 c' hc').1, (a2 c' hc').2.trans (r2 c' hc').2⟩
  · intro s
    have hl : ∀ (r : Registry), (r.prune c).list c = r.list c := by
      intro r
      simp only [Registry.list, live_prune]
    rw [hl, a3, mem_toAdd]
    have h1 : s ∈ Registry.list (List.foldl (removeOne bus c) st (toRemove d st.registry c)).registry c ↔
        s ∈ st.registry.list c ∧ s ∈ d.subs c := by
      simp only [Registry.list, List.mem_map, r3, mem_toRemove]
      constructor
      · rintro ⟨x, ⟨hx, hn⟩, rfl⟩
        refine ⟨⟨x, hx, rfl⟩, ?_⟩
        by_contra hd
        exact hn ⟨⟨x, hx, rfl⟩, hd⟩
      · rintro ⟨⟨x, hx, rfl⟩, hd⟩
        exact ⟨x, ⟨hx, fun hn => hn.2 hd⟩, rfl⟩
    rw [h1]
    tauto
  · intro hlive
    rw [live_prune] at hlive
    rw [has_prune]
    simp [hlive]

/-- Reconciling a list of channels without error makes each of them converged
and leaves the others as they were. -/
theorem foldl_applyChannel_spec (bus : Bus) (d : DesiredState) (chans : List ChannelID) :
    ∀ (st : State), (chans.foldl (applyChannel bus d) st).errors = [] →
      st.errors = [] ∧
      ∀ c, (c ∈ chans → Converged d (chans.foldl (applyChannel bus d) st).registry c) ∧
        (c ∉ chans →
          (chans.foldl (applyChannel bus d) st).registry.live c = st.registry.live c ∧
          (chans.foldl (applyChannel bus d) st).registry.has c = st.registry.has c) := by
  induction chans with
  | nil => intro st h; exact ⟨h, fun c => ⟨fun hc => absurd hc (List.not_mem_nil c), fun _ => ⟨rfl, rfl⟩⟩⟩
  | cons c0 cs ih =>
    intro st h
    simp only [List.foldl_cons] at h ⊢
    obtain ⟨h1, h2⟩ := ih _ h
    obtain ⟨g1, g2, g3⟩ := applyChannel_spec bus d st c0 h1
    refine ⟨g1, fun c => ⟨fun hc => ?_, fun hc => ?_⟩⟩
    · by_cases hcs : c ∈ cs
      · exact (h2 c).1 hcs
      · have hc0 : c = c0 := by
          rcases List.mem_cons.mp hc with e | e
          · exact e
          · exact absurd e hcs
        subst hc0
        obtain ⟨e1, e2⟩ := (h2 c).2 hcs
        unfold Converged at g3 ⊢
        simp only [Registry.list] at g3 ⊢
        rw [e1, e2]
        exact g3
    · simp only [List.mem_cons, not_or] at hc
      obtain ⟨e1, e2⟩ := (h2 c).2 hc.2
      exact ⟨e1.trans (g2 c hc.1).1, e2.trans (g2 c hc.1).2⟩

/-- An `apply` that reports no error leaves every channel converged. -/
theorem apply_spec (bus : Bus) (d : DesiredState) (st : State)
    (h : (apply bus d st).errors = []) (c : ChannelID) :
    Converged d (apply bus d st).registry c := by
  unfold apply at h ⊢
  simp only at h ⊢
  obtain ⟨_, h2⟩ := foldl_applyChannel_spec bus d _ _ h
  by_cases hc : c ∈ (d.map Prod.fst ++ st.registry.channels).dedup
  · exact (h2 c).1 hc
  · obtain ⟨e1, e2⟩ := (h2 c).2 hc
    simp only [List.mem_dedup, List.mem_append, not_or] at hc
    have hlive : st.registry.live c = [] := live_of_not_mem_channels _ _ hc.2
    have hhas : st.registry.has c = false := (has_eq_false_iff _ _).mpr hc.2
    have hsubs : d.subs c = [] := subs_of_not_mem_keys _ _ hc.1
    unfold Converged
    simp only [Registry.list]
    rw [e1, e2, hsubs]
    simp [hlive, hhas]

/-! ## A bus that never fails reports no error -/

/-- On a bus whose unsubscribe never fails a removal reports nothing. -/
theorem removeOne_errors_ok (bus : Bus) (hu : ∀ n h, bus.unsubscribeOk n h = true)
    (c : ChannelID) (st : State) (s : SubscriptionSpec) :
    (removeOne bus c st s).errors = st.errors := by
  unfold removeOne
  cases st.registry.lookup c s with
  | none => rfl
  | some l => simp [hu]

/-- On a bus whose subscribe never fails an addition reports nothing. -/
theorem addOne_errors_ok (bus : Bus) (hs : ∀ n c s, bus.subscribeOk n c s = true)
    (c : ChannelID) (st : State) (s : SubscriptionSpec) :
    (addOne bus c st s).errors = st.errors := by
  unfold addOne
  simp [hs]

/-- On a bus whose unsubscribe never fails a run of removals reports nothing. -/
theorem foldl_removeOne_errors_ok (bus : Bus) (hu : ∀ n h, bus.unsubscribeOk n h = true)
    (c : ChannelID) (l : List SubscriptionSpec) :
    ∀ (st : State), (l.foldl (removeOne bus c) st).errors = st.errors := by
  induction l with
  | nil => intro st; rfl
  | cons s l ih =>
    intro st
    rw [List.foldl_cons, ih, removeOne_errors_ok bus hu]

/-- On a bus whose subscribe never fails a run of additions reports nothing. -/
theorem foldl_addOne_errors_ok (bus : Bus) (hs : ∀ n c s, bus.subscribeOk n c s = true)
    (c : ChannelID) (l : List SubscriptionSpec) :
    ∀ (st : State), (l.foldl (addOne bus c) st).errors = st.errors := by
  induction l with
  | nil => intro st; rfl
  | cons s l ih =>
    intro st
    rw [List.foldl_cons, ih, addOne_errors_ok bus hs]

/-- On a bus that never fails reconciling one channel reports nothing. -/
theorem applyChannel_errors_ok (bus : Bus) (hs : ∀ n c s, bus.subscribeOk n c s = true)
    (hu : ∀ n h, bus.unsubscribeOk n h = true) (d : DesiredState) (st : State) (c : ChannelID) :
    (applyChannel bus d st c).errors = st.errors := by
  unfold applyChannel
  simp only
  rw [foldl_addOne_errors_ok bus hs, foldl_removeOne_errors_ok bus hu]

/-- On a bus that never fails `apply` reports no error. -/
theorem apply_errors_ok (bus : Bus) (hs : ∀ n c s, bus.subscribeOk n c s = true)
    (hu : ∀ n h, bus.unsubscribeOk n h = true) (d : DesiredState) (st : State) :
    (apply bus d st).errors = [] := by
  unfold apply
  simp only
  generalize (d.map Prod.fst ++ st.registry.channels).dedup = chans
  have key : ∀ (l : List ChannelID) (s0 : State),
      (l.foldl (applyChannel bus d) s0).errors = s0.errors := by
    intro l
    induction l with
    | nil => intro s0; rfl
    | cons c l ih =>
      intro s0
      rw [List.foldl_cons, ih, applyChannel_errors_ok bus hs hu]
  rw [key]

/-! ## A converged registry is a fixed point of `apply` -/

/-- A converged channel has nothing to add. -/
theorem toAdd_of_converged (d : DesiredState) (r : Registry) (c : ChannelID)
    (h : Converged d r c) : toAdd d r c = [] := by
  rw [List.eq_nil_iff_forall_not_mem]
  intro s hs
  rw [mem_toAdd] at hs
  exact hs.2 ((h.1 s).mpr hs.1)

/-- A converged channel has nothing to remove. -/
theorem toRemove_of_converged (d : DesiredState) (r : Registry) (c : ChannelID)
    (h : Converged d r c) : toRemove d r c = [] := by
  rw [List.eq_nil_iff_forall_not_mem]
  intro s hs
  rw [mem_toRemove] at hs
  exact hs.2 ((h.1 s).mp hs.1)

/-- Reconciling a converged channel returns the state unchanged. -/
theorem applyChannel_of_converged (bus : Bus) (d : DesiredState) (st : State) (c : ChannelID)
    (h : Converged d st.registry c) : applyChannel bus d st c = st := by
  unfold applyChannel
  simp only [toAdd_of_converged d _ c h, toRemove_of_converged d _ c h, List.foldl_nil]
  have hp : st.registry.prune c = st.registry := by
    unfold Registry.prune
    split
    · rename_i hl
      exact filter_ne_of_has_false _ _ (h.2 hl)
    · rfl
  rw [hp]

/-- Applying a snapshot to a state that is converged for it, with no pending
error report, returns the state unchanged. -/
theorem apply_of_converged (bus : Bus) (d : DesiredState) (st : State)
    (h : ∀ c, Converged d st.registry c) (he : st.errors = []) : apply bus d st = st := by
  unfold apply
  simp only
  have hst : { st with errors := [] } = st := by
    cases st
    simp only at he
    subst he
    rfl
  rw [hst]
  generalize (d.map Prod.fst ++ st.registry.channels).dedup = chans
  induction chans with
  | nil => rfl
  | cons c l ih => rw [List.foldl_cons, applyChannel_of_converged bus d st c (h c), ih]

/-! ## The two testable properties of the Reconciler -/

/-- C3: with a bus on which every subscribe and unsubscribe call succeeds, from
any dispatcher state and for any two snapshots `d1` then `d2`, the registry
after `apply d1` and `apply d2` lists for every channel exactly the specs `d2`
assigns to it, holds no ChannelState for a channel whose set in `d2` is empty or
that is absent from `d2`, and the second apply reports no error. -/
theorem reconciliation_converges (bus : Bus)
    (hs : ∀ n c s, bus.subscribeOk n c s = true) (hu : ∀ n h, bus.unsubscribeOk n h = true)
    (st : State) (d1 d2 : DesiredState) (c : ChannelID) :
    (∀ s, s ∈ (apply bus d2 (apply bus d1 st)).registry.list c ↔ s ∈ d2.subs c) ∧
    (d2.subs c = [] → ∀ cs ∈ (apply bus d2 (apply bus d1 st)).registry, cs.id ≠ c) ∧
    (c ∉ d2.map Prod.fst → ∀ cs ∈ (apply bus d2 (apply bus d1 st)).registry, cs.id ≠ c) ∧
    (apply bus d2 (apply bus d1 st)).errors = [] := by
  have he := apply_errors_ok bus hs hu d2 (apply bus d1 st)
  have hc := apply_spec bus d2 (apply bus d1 st) he c
  have hempty : d2.subs c = [] →
      ∀ cs ∈ (apply bus d2 (apply bus d1 st)).registry, cs.id ≠ c := by
    intro hd cs hcs hid
    have hlist : (apply bus d2 (apply bus d1 st)).registry.list c = [] := by
      rw [List.eq_nil_iff_forall_not_mem]
      intro s hsm
      have := (hc.1 s).mp hsm
      rw [hd] at this
      exact absurd this (List.not_mem_nil s)
    have hlive : (apply bus d2 (apply bus d1 st)).registry.live c = [] := by
      simpa [Registry.list] using hlist
    have hhas := (has_eq_false_iff _ _).mp (hc.2 hlive)
    exact hhas (List.mem_map.mpr ⟨cs, hcs, hid⟩)
  exact ⟨hc.1, hempty, fun habs => hempty (subs_of_not_mem_keys _ _ habs), he⟩

/-- Witness for C3: the never-failing bus, the empty state, `desiredA` then
`desiredB`, channel `ns/b`, which `desiredB` empties. -/
theorem reconciliation_converges_witness :
    (∀ n c s, okBus.subscribeOk n c s = true) ∧ (∀ n h, okBus.unsubscribeOk n h = true) ∧
    (desiredB.subs "ns/b" = [] →
      ∀ cs ∈ (apply okBus desiredB (apply okBus desiredA emptyState)).registry, cs.id ≠ "ns/b") :=
  ⟨fun _ _ _ => rfl, fun _ _ => rfl,
    (reconciliation_converges okBus (fun _ _ _ => rfl) (fun _ _ => rfl) emptyState desiredA
      desiredB "ns/b").2.1⟩

/-- C4: after an `apply d` that reported no error, a second `apply d` (on any
bus) computes empty `toAdd` and `toRemove` for every channel, appends no event
to the log, so issues no bus subscribe and no bus unsubscribe call, and returns
the same state, registry included. -/
theorem apply_idempotent (bus bus2 : Bus) (d : DesiredState) (st : State)
    (h : (apply bus d st).errors = []) :
    (∀ c, toAdd d (apply bus d st).registry c = [] ∧
      toRemove d (apply bus d st).registry c = []) ∧
    (apply bus2 d (apply bus d st)).registry = (apply bus d st).registry ∧
    (apply bus2 d (apply bus d st)).log = (apply bus d st).log ∧
    (((apply bus2 d (apply bus d st)).log.drop (apply bus d st).log.length).filter
      Event.isBusCall = []) ∧
    apply bus2 d (apply bus d st) = apply bus d st := by
  have hc := apply_spec bus d st h
  have hfix := apply_of_converged bus2 d (apply bus d st) hc h
  refine ⟨fun c => ⟨toAdd_of_converged d _ c (hc c), toRemove_of_converged d _ c (hc c)⟩,
    ?_, ?_, ?_, hfix⟩
  · rw [hfix]
  · rw [hfix]
  · rw [hfix]
    simp

/-- Witness for C4: `desiredA` applied to the empty state on the never-failing
bus reports no error, and applying it again returns the same state. -/
theorem apply_idempotent_witness :
    (apply okBus desiredA emptyState).errors = [] ∧
    apply okBus desiredA (apply okBus desiredA emptyState) = apply okBus desiredA emptyState :=
  ⟨by decide, (apply_idempotent okBus okBus desiredA emptyState (by decide)).2.2.2.2⟩

end Reconciler
